import Mathlib

/-!
# A verification model of `census.c`

The program loads 23 decennial census records of New Jersey (1790 .. 2010)
from a data file and then answers queries: for every year typed by the user it
prints the recorded population, or a linear interpolation between the two
enclosing decades.

The embedding below follows the C source function by function.

* `int` values are mathematical integers; the only place where the range of
  `int` can be exceeded is `atoi`, which is undefined there and is modelled as
  a fault.
* `float` values are exact rationals: every statement about an estimate is a
  statement in exact arithmetic, rounding of the machine format is not modelled.
* A local array is a list of slots, a slot being `none` until it is written.
* Behaviour that C leaves undefined ends a run with a `Fault`.
* Every run carries a trace: the text written to standard output and the calls
  made to the functions of the program, in order.
-/

namespace Census

/-! ## Constants (lines 14-19) -/

/-- Constant `EARLIEST_YEAR` of line 15. -/
def EARLIEST_YEAR : Int := 1790

/-- Constant `LATEST_YEAR` of line 16. -/
def LATEST_YEAR : Int := 2010

/-- Constant `BUFFER_SIZE` of line 17. -/
def BUFFER_SIZE : Nat := 64

/-- Constant `DECADES` of line 18. -/
def DECADES : Nat := 23

/-- Smallest value of a 32-bit `int`. -/
def INT_MIN : Int := -2147483648

/-- Largest value of a 32-bit `int`. -/
def INT_MAX : Int := 2147483647

/-! ## Faults, events and runs -/

/-- Ways in which an execution leaves the behaviour defined by the C standard
(or, for `nonfinite`, the domain of exact arithmetic). -/
inductive Fault
  /-- The call of `scanf` met the end of standard input and left `input` unwritten. -/
  | eof
  /-- A call of `atoi` on a numeral outside the range of `int`. -/
  | overflow
  /-- The statement `__builtin_unreachable()` was reached. -/
  | unreachable
  /-- An array access outside slots `0 .. DECADES - 1`. -/
  | bounds
  /-- A read of an array slot that was never written. -/
  | uninit
  /-- A division by zero in `interpolate`. -/
  | nonfinite
  /-- A null `FILE *` was handed to `fscanf`. -/
  | nullstream
  deriving DecidableEq, Repr

/-- Result of a fallible step. -/
inductive Res (α : Type)
  | ok (v : α)
  | fault (f : Fault)
  deriving DecidableEq, Repr

/-- The struct `InterpolationData` (lines 38-44). -/
structure InterpolationData where
  population_year : Int
  lower_decade : Int
  upper_decade : Int
  lower_decade_population : ℚ
  upper_decade_population : ℚ
  deriving DecidableEq

/-- One observable step of an execution. -/
inductive Event
  /-- Text written to standard output by one `printf` call. -/
  | out (text : String)
  /-- A call `atoi(input)`. -/
  | call_atoi (input : List Char)
  /-- A call `lower_decade_index(population_year, decade_offset, years)`. -/
  | call_lower_decade_index (population_year decade_offset : Int)
  /-- A call `interpolate(interpolation_data)`. -/
  | call_interpolate (d : InterpolationData)
  /-- A call `print_results(population_year, population_count, exact)`. -/
  | call_print_results (population_year : Int) (population_count : ℚ) (exact : Bool)
  /-- A call `fscanf(fp, "%d %f", &years[slot], &populations[slot])` and the
  value it returned, if it returned one. -/
  | call_fscanf (slot : Nat) (ret : Option Int)
  /-- The call `input_loop(years, populations)` of line 73. -/
  | call_input_loop
  deriving DecidableEq

/-! ## The C library: character classes, `atoi`, `printf` -/

/-- The function `isspace` of the C locale. -/
def isspace (c : Char) : Bool :=
  c == ' ' || c == '\t' || c == '\n' || c == '\x0b' || c == '\x0c' || c == '\r'

/-- The function `isdigit`. -/
def isdigit (c : Char) : Bool :=
  '0'.toNat ≤ c.toNat && c.toNat ≤ '9'.toNat

/-- Value of a decimal digit character. -/
def digit_value (c : Char) : Int :=
  (c.toNat - '0'.toNat : Nat)

/-- Value of a run of decimal digits, most significant first. -/
def digits_value (ds : List Char) : Int :=
  ds.foldl (fun acc c => 10 * acc + digit_value c) 0

/-- The body of `atoi` after leading white space: an optional sign, then the
longest run of digits; whatever follows is ignored. -/
def atoi_signed : List Char → Int
  | '-' :: r => - digits_value (r.takeWhile isdigit)
  | '+' :: r => digits_value (r.takeWhile isdigit)
  | r => digits_value (r.takeWhile isdigit)

/-- The function `atoi`: `some v` when the numeral fits an `int`, `none` when it
does not (the behaviour is then undefined). A string without a leading numeral
converts to `0`. -/
def atoi (s : List Char) : Option Int :=
  let v := atoi_signed (s.dropWhile isspace)
  if INT_MIN ≤ v ∧ v ≤ INT_MAX then some v else none

/-- Conversion `%d`. -/
def fmt_d (n : Int) : String :=
  match n with
  | Int.ofNat m => Nat.repr m
  | Int.negSucc m => "-" ++ Nat.repr (m + 1)

/-- Nearest integer, ties to the even neighbour. -/
def round_half_even (q : ℚ) : Int :=
  let f := ⌊q⌋
  let r := q - f
  if r < 1 / 2 then f
  else if 1 / 2 < r then f + 1
  else if f % 2 = 0 then f else f + 1

/-- Conversion `%.2f` of an exact value. -/
def fmt_2f (q : ℚ) : String :=
  let n := (round_half_even (|q| * 100)).toNat
  (if q < 0 then "-" else "") ++ Nat.repr (n / 100) ++ "."
    ++ Nat.repr (n % 100 / 10) ++ Nat.repr (n % 10)

/-- An argument of `printf`. -/
inductive Arg
  | int (n : Int)
  | flt (q : ℚ)
  | str (s : String)

/-- The text `printf` produces: the format is copied, and each of the
conversions `%d`, `%.2f` and `%s` is replaced by its next argument. -/
def printf_chars : List Char → List Arg → String
  | [], _ => ""
  | '%' :: 'd' :: fmt, Arg.int n :: args => fmt_d n ++ printf_chars fmt args
  | '%' :: 's' :: fmt, Arg.str s :: args => s ++ printf_chars fmt args
  | '%' :: '.' :: '2' :: 'f' :: fmt, Arg.flt q :: args => fmt_2f q ++ printf_chars fmt args
  | c :: fmt, args => String.singleton c ++ printf_chars fmt args

/-- The function `printf` on a format string. -/
def printf (format : String) (args : List Arg) : String :=
  printf_chars format.data args

/-! ## Standard input and the table -/

/-- What `scanf("%s", input)` can leave in `char input[BUFFER_SIZE]`: a
non-empty run of characters with no white space and no NUL, short enough for
the buffer together with its terminator. -/
def fits_input (cs : List Char) : Bool :=
  !cs.isEmpty && decide (cs.length < BUFFER_SIZE)
    && cs.all (fun c => !isspace c && c != '\x00')

/-- A token of standard input as stored in `input`. -/
structure Token where
  chars : List Char
  wf : fits_input chars = true
  deriving DecidableEq

/-- The character `input[k]` of the C string: the terminator follows the
last character. -/
def char_at (input : List Char) (k : Nat) : Char :=
  input.getD k '\x00'

/-- The test of line 98:
`input[0] == '0' && (input[1] == '\0' || input[1] == '\n')`. -/
def sentinel_check (input : List Char) : Bool :=
  char_at input 0 == '0' && (char_at input 1 == '\x00' || char_at input 1 == '\n')

/-- Read of slot `i` of a local array of `DECADES` elements. -/
def read_slot {α : Type} (a : List (Option α)) (i : Nat) : Res α :=
  if i < DECADES then
    match a[i]? with
    | some (some v) => Res.ok v
    | _ => Res.fault Fault.uninit
  else Res.fault Fault.bounds

/-- How an execution of `input_loop` ends. -/
inductive Ending
  /-- The function returned to its caller. -/
  | returned
  /-- The execution left defined behaviour. -/
  | fault (f : Fault)
  deriving DecidableEq, Repr

/-- An execution of `input_loop`: its trace, how it ended, and the tokens of
standard input it did not read. -/
structure Run where
  trace : List Event
  ending : Ending
  unread : List Token
  deriving DecidableEq

/-- The run `r` preceded by the events `es`. -/
def Run.after (es : List Event) (r : Run) : Run :=
  { r with trace := es ++ r.trace }

/-- Text written to standard output along a trace. -/
def stdout_text : List Event → String
  | [] => ""
  | Event.out text :: es => text ++ stdout_text es
  | _ :: es => stdout_text es

/-! ## The functions of the program -/

/-- The loop of `lower_decade_index` (lines 158-163) with `n` iterations left
from index `i`; falling out of the loop reaches `__builtin_unreachable()`. -/
def lower_decade_index_from (lower_decade : Int) (years : List (Option Int)) :
    Nat → Nat → Res Nat
  | 0, _ => Res.fault Fault.unreachable
  | n + 1, i =>
    match read_slot years i with
    | Res.fault f => Res.fault f
    | Res.ok y => if lower_decade = y then Res.ok i
                  else lower_decade_index_from lower_decade years n (i + 1)

/-- The function `lower_decade_index` (lines 155-164). -/
def lower_decade_index (population_year decade_offset : Int)
    (years : List (Option Int)) : Res Nat :=
  let lower_decade := population_year - decade_offset
  lower_decade_index_from lower_decade years DECADES 0

/-- The function `interpolate` (lines 167-175), in exact arithmetic. -/
def interpolate (d : InterpolationData) : Res ℚ :=
  let y0 : ℚ := d.lower_decade_population
  let y1 : ℚ := d.upper_decade_population
  let x : ℚ := d.population_year
  let x0 : ℚ := d.lower_decade
  let x1 : ℚ := d.upper_decade
  if x1 - x0 = 0 then Res.fault Fault.nonfinite
  else Res.ok (y0 + ((y1 - y0) * (x - x0)) / (x1 - x0))

/-- The qualifier chosen on line 179. -/
def approx_str (exact : Bool) : String :=
  if exact then "" else "(approximately)"

/-- The text `print_results` writes (line 180). -/
def print_results_text (population_year : Int) (population_count : ℚ) (exact : Bool) :
    String :=
  printf "\nYear: %d\nPopulation: %.2f %s\n\n"
    [Arg.int population_year, Arg.flt population_count, Arg.str (approx_str exact)]

/-- The function `print_results` (lines 178-181): the call and its output. -/
def print_results (population_year : Int) (population_count : ℚ) (exact : Bool) :
    List Event :=
  [Event.call_print_results population_year population_count exact,
   Event.out (print_results_text population_year population_count exact)]

/-- The prompt of line 94. -/
def prompt_text : String :=
  printf "What year would you like to find or approximate the population of New Jersey for (>= %d and <= %d): "
    [Arg.int EARLIEST_YEAR, Arg.int LATEST_YEAR]

/-- The message of line 104. -/
def invalid_text (input : List Char) : String :=
  printf "Please enter a valid number for the year (you entered: %s)\n"
    [Arg.str (String.mk input)]

/-- The message of line 110. -/
def range_text (population_year : Int) : String :=
  printf "Please enter a year >= %d and <= %d (you entered: %d)\n"
    [Arg.int EARLIEST_YEAR, Arg.int LATEST_YEAR, Arg.int population_year]

/-- Lines 136-141: the struct filled from the two arrays. -/
def interpolation_data (years : List (Option Int)) (populations : List (Option ℚ))
    (population_year : Int) (index : Nat) : Res InterpolationData :=
  match read_slot years index, read_slot years (index + 1),
        read_slot populations index, read_slot populations (index + 1) with
  | Res.ok x0, Res.ok x1, Res.ok y0, Res.ok y1 =>
      Res.ok { population_year := population_year, lower_decade := x0, upper_decade := x1,
               lower_decade_population := y0, upper_decade_population := y1 }
  | Res.fault f, _, _, _ => Res.fault f
  | _, Res.fault f, _, _ => Res.fault f
  | _, _, Res.fault f, _ => Res.fault f
  | _, _, _, Res.fault f => Res.fault f

/-- The function `input_loop` (lines 83-152). Each of its four recursive calls
is a recursive call here; the recursion follows the tokens of standard
input, one being read per call. -/
def input_loop (years : List (Option Int)) (populations : List (Option ℚ)) :
    List Token → Run
  | [] => ⟨[Event.out prompt_text], Ending.fault Fault.eof, []⟩
  | t :: stdin =>
    let input := t.chars
    if sentinel_check input then ⟨[Event.out prompt_text], Ending.returned, stdin⟩
    else
      match atoi input with
      | none => ⟨[Event.out prompt_text, Event.call_atoi input],
                 Ending.fault Fault.overflow, stdin⟩
      | some population_year =>
        if population_year = 0 then
          Run.after [Event.out prompt_text, Event.call_atoi input,
                     Event.out (invalid_text input)]
            (input_loop years populations stdin)
        else if population_year < EARLIEST_YEAR ∨ population_year > LATEST_YEAR then
          Run.after [Event.out prompt_text, Event.call_atoi input,
                     Event.out (range_text population_year)]
            (input_loop years populations stdin)
        else
          let decade_offset := population_year.tmod 10
          let head := [Event.out prompt_text, Event.call_atoi input,
                       Event.call_lower_decade_index population_year decade_offset]
          match lower_decade_index population_year decade_offset years with
          | Res.fault f => ⟨head, Ending.fault f, stdin⟩
          | Res.ok index =>
            if decade_offset = 0 then
              match read_slot populations index with
              | Res.fault f => ⟨head, Ending.fault f, stdin⟩
              | Res.ok p =>
                Run.after (head ++ print_results population_year p true)
                  (input_loop years populations stdin)
            else
              match interpolation_data years populations population_year index with
              | Res.fault f => ⟨head, Ending.fault f, stdin⟩
              | Res.ok d =>
                match interpolate d with
                | Res.fault f => ⟨head ++ [Event.call_interpolate d], Ending.fault f, stdin⟩
                | Res.ok v =>
                  Run.after (head ++ [Event.call_interpolate d]
                              ++ print_results population_year v false)
                    (input_loop years populations stdin)

/-! ## The data file and `main` -/

/-- The data file as successive `fscanf(fp, "%d %f", ..)` calls meet it. -/
inductive ScanItem
  /-- A well-formed record: an integer, white space, a decimal number. -/
  | record (year : Int) (population : ℚ)
  /-- An integer followed by text that is not a number, as in `12abc 3500`:
  `%d` converts the integer and `%f` converts nothing. -/
  | year_only (year : Int)
  /-- Text that does not begin with an integer: `%d` converts nothing of it. -/
  | garbage
  deriving DecidableEq

/-- The value `EOF` returned by `fscanf` at the end of the file. -/
def EOF : Int := -1

/-- The state of `main` while the file is read (lines 55-67). -/
structure Loader where
  /-- The stream `fp`: `none` is the null pointer, otherwise what is left of
  the file. -/
  fp : Option (List ScanItem)
  /-- The index `i`. -/
  i : Nat
  years : List (Option Int)
  populations : List (Option ℚ)
  /-- The `fscanf` calls made so far. -/
  trace : List Event
  /-- Set by the first step that leaves defined behaviour. -/
  fault : Option Fault
  deriving DecidableEq

/-- The state on entry of the loop: `fp` as `fopen` returned it, `i = 0`, both
arrays unwritten. -/
def Loader.start (fp : Option (List ScanItem)) : Loader :=
  { fp := fp, i := 0, years := List.replicate DECADES none,
    populations := List.replicate DECADES none, trace := [], fault := none }

/-- Store through `&a[i]`; a store outside the array does not change it. -/
def write_slot {α : Type} (a : List (Option α)) (i : Nat) (v : α) : List (Option α) :=
  if i < DECADES then a.set i (some v) else a

/-- The fault of a store through `&a[i]`. -/
def store_fault (i : Nat) : Option Fault :=
  if i < DECADES then none else some Fault.bounds

/-- One call `fscanf(fp, "%d %f", &years[i], &populations[i])`: its return value
and the state after it. Each converted item is stored; the return value is the
number of stored items, or `EOF` when the file has ended. -/
def fscanf (s : Loader) : Int × Loader :=
  match s.fp with
  | none =>
      (0, { s with trace := s.trace ++ [Event.call_fscanf s.i none],
                   fault := some Fault.nullstream })
  | some [] => (EOF, { s with trace := s.trace ++ [Event.call_fscanf s.i (some EOF)] })
  | some (ScanItem.record y p :: more) =>
      (2, { s with years := write_slot s.years s.i y,
                   populations := write_slot s.populations s.i p,
                   fp := some more,
                   trace := s.trace ++ [Event.call_fscanf s.i (some 2)],
                   fault := store_fault s.i })
  | some (ScanItem.year_only y :: more) =>
      (1, { s with years := write_slot s.years s.i y,
                   fp := some (ScanItem.garbage :: more),
                   trace := s.trace ++ [Event.call_fscanf s.i (some 1)],
                   fault := store_fault s.i })
  | some (ScanItem.garbage :: _) =>
      (0, { s with trace := s.trace ++ [Event.call_fscanf s.i (some 0)] })

/-- The loop of lines 64-67: `while(fscanf(..) && i < DECADES) i++;`. The call
is the left operand, so it is made before `i` is compared with `DECADES`. The
loop is followed no further once a call has left defined behaviour. -/
def read_loop (s : Loader) : Loader :=
  let r := fscanf s
  if r.2.fault.isSome then r.2
  else if r.1 ≠ 0 ∧ s.i < DECADES then read_loop { r.2 with i := s.i + 1 }
  else r.2
termination_by DECADES - s.i
decreasing_by
  simp_wf
  have h : (fscanf s).2.i = s.i := by
    unfold fscanf; split <;> rfl
  omega

/-- An execution of the whole program. -/
structure Execution where
  trace : List Event
  /-- The exit status, or the fault that ended the execution. -/
  status : Res Int
  unread : List Token
  deriving DecidableEq

/-- The function `main` (lines 53-77). `file` is what `fopen` found: `none` when
the file cannot be opened. -/
def main (file : Option (List ScanItem)) (stdin : List Token) : Execution :=
  let s := read_loop (Loader.start file)
  match s.fault with
  | some f => ⟨s.trace, Res.fault f, stdin⟩
  | none =>
    let r := input_loop s.years s.populations stdin
    match r.ending with
    | Ending.returned => ⟨s.trace ++ Event.call_input_loop :: r.trace, Res.ok 0, r.unread⟩
    | Ending.fault f => ⟨s.trace ++ Event.call_input_loop :: r.trace, Res.fault f, r.unread⟩

/-! ## The query loop as an iteration -/

/-- The response to one token other than the sentinel (lines 101-148 without
the recursive calls): the events of the query after the prompt, and the fault
that ended it, if any. It depends on the token and on the two arrays only. -/
def respond (years : List (Option Int)) (populations : List (Option ℚ)) (t : Token) :
    List Event × Option Fault :=
  let input := t.chars
  match atoi input with
  | none => ([Event.call_atoi input], some Fault.overflow)
  | some population_year =>
    if population_year = 0 then
      ([Event.call_atoi input, Event.out (invalid_text input)], none)
    else if population_year < EARLIEST_YEAR ∨ population_year > LATEST_YEAR then
      ([Event.call_atoi input, Event.out (range_text population_year)], none)
    else
      let decade_offset := population_year.tmod 10
      let head := [Event.call_atoi input,
                   Event.call_lower_decade_index population_year decade_offset]
      match lower_decade_index population_year decade_offset years with
      | Res.fault f => (head, some f)
      | Res.ok index =>
        if decade_offset = 0 then
          match read_slot populations index with
          | Res.fault f => (head, some f)
          | Res.ok p => (head ++ print_results population_year p true, none)
        else
          match interpolation_data years populations population_year index with
          | Res.fault f => (head, some f)
          | Res.ok d =>
            match interpolate d with
            | Res.fault f => (head ++ [Event.call_interpolate d], some f)
            | Res.ok v =>
              (head ++ [Event.call_interpolate d] ++ print_results population_year v false,
               none)

/-- The loop of the design note, `while not sentinel: prompt-process-print`,
as an iteration over the tokens: `done` is the trace written so far, and the
two arrays are the same in every round. -/
def query_loop (years : List (Option Int)) (populations : List (Option ℚ)) :
    List Token → List Event → Run
  | [], done => ⟨done ++ [Event.out prompt_text], Ending.fault Fault.eof, []⟩
  | t :: stdin, done =>
    if t.chars = ['0'] then ⟨done ++ [Event.out prompt_text], Ending.returned, stdin⟩
    else
      match respond years populations t with
      | (es, some f) => ⟨done ++ Event.out prompt_text :: es, Ending.fault f, stdin⟩
      | (es, none) =>
        query_loop years populations stdin (done ++ Event.out prompt_text :: es)

/-! ## Sample data -/

/-- The 23 decades. -/
def sample_years : List (Option Int) :=
  [some 1790, some 1800, some 1810, some 1820, some 1830, some 1840, some 1850, some 1860,
   some 1870, some 1880, some 1890, some 1900, some 1910, some 1920, some 1930, some 1940,
   some 1950, some 1960, some 1970, some 1980, some 1990, some 2000, some 2010]

/-- A population for each of the 23 decades. -/
def sample_populations : List (Option ℚ) :=
  [some 184139, some 211149, some 245562, some 277575, some 320823, some 373306,
   some 489555, some 672035, some 906096, some 1131116, some 1444933, some 1883669,
   some 2537167, some 3155900, some 4041334, some 4160165, some 4835329, some 6066782,
   some 7171112, some 7365011, some 7747750, some 8414350, some 8791894]

/-- The first `n` records of a sample file: the decades from 1790 on. -/
def sample_records (n : Nat) : List (Int × ℚ) :=
  (List.range n).map (fun k => (1790 + 10 * (k : Int), 1000 * (k : ℚ) + 500))

/-- A data file of `n` well-formed records. -/
def sample_file (n : Nat) : List ScanItem :=
  (sample_records n).map (fun r => ScanItem.record r.1 r.2)

/-- The token `0`. -/
def token_0 : Token := ⟨['0'], by decide⟩

/-- The token `1790`. -/
def token_1790 : Token := ⟨['1', '7', '9', '0'], by decide⟩

/-- The token `1795`. -/
def token_1795 : Token := ⟨['1', '7', '9', '5'], by decide⟩

/-- The token `2009`. -/
def token_2009 : Token := ⟨['2', '0', '0', '9'], by decide⟩

/-- The token `1789`. -/
def token_1789 : Token := ⟨['1', '7', '8', '9'], by decide⟩

/-- The token `2011`. -/
def token_2011 : Token := ⟨['2', '0', '1', '1'], by decide⟩

/-- The token `-5`. -/
def token_minus_5 : Token := ⟨['-', '5'], by decide⟩

/-- The token `abc`. -/
def token_abc : Token := ⟨['a', 'b', 'c'], by decide⟩

/-- The token `00`. -/
def token_00 : Token := ⟨['0', '0'], by decide⟩

/-- The token `0abc`. -/
def token_0abc : Token := ⟨['0', 'a', 'b', 'c'], by decide⟩

/-- The token `1990`. -/
def token_1990 : Token := ⟨['1', '9', '9', '0'], by decide⟩

/-- The token `01990abc`. -/
def token_01990abc : Token := ⟨['0', '1', '9', '9', '0', 'a', 'b', 'c'], by decide⟩

/-! ## Vocabulary of the statements -/

/-- The invariant of the table: slot `i` of `years` holds `1790 + 10 * i`. -/
def table_invariant (years : List (Option Int)) : Prop :=
  ∀ i : Nat, i < DECADES → years[i]? = some (some (EARLIEST_YEAR + 10 * (i : Int)))

/-- The slot in which a table satisfying the invariant records the decade `year`. -/
def decade_slot (year : Int) : Nat :=
  ((year - EARLIEST_YEAR) / 10).toNat

/-! ## Auxiliary facts -/

theorem read_slot_of_getElem {α : Type} (a : List (Option α)) (i : Nat) (v : α)
    (hi : i < DECADES) (h : a[i]? = some (some v)) : read_slot a i = Res.ok v := by
  simp [read_slot, hi, h]

theorem read_slot_years (years : List (Option Int)) (hinv : table_invariant years)
    (i : Nat) (hi : i < DECADES) :
    read_slot years i = Res.ok (EARLIEST_YEAR + 10 * (i : Int)) :=
  read_slot_of_getElem years i _ hi (hinv i hi)

theorem lower_decade_index_from_hit (years : List (Option Int))
    (hinv : table_invariant years) (k : Nat) :
    ∀ n i : Nat, i ≤ k → k < i + n → i + n ≤ DECADES →
      lower_decade_index_from (EARLIEST_YEAR + 10 * (k : Int)) years n i = Res.ok k := by
  intro n
  induction n with
  | zero => intro i h1 h2 _; omega
  | succ n ih =>
    intro i h1 h2 h3
    have hi : i < DECADES := by omega
    rw [lower_decade_index_from, read_slot_years years hinv i hi]
    by_cases hk : k = i
    · subst hk; simp
    · have hne : ¬ (EARLIEST_YEAR + 10 * (k : Int) = EARLIEST_YEAR + 10 * (i : Int)) := by
        intro h; apply hk; omega
      simp only [hne, if_false]
      exact ih (i + 1) (by omega) (by omega) (by omega)

theorem tmod_ten (y : Int) (h : 0 ≤ y) : y.tmod 10 = y % 10 :=
  Int.tmod_eq_emod h (by decide)

theorem decade_slot_lt (y : Int) (hlo : 1790 ≤ y) (hhi : y ≤ 2010) :
    decade_slot (y - y % 10) < DECADES := by
  simp only [decade_slot, EARLIEST_YEAR, DECADES]; omega

theorem decade_slot_year (y : Int) (hlo : 1790 ≤ y) :
    EARLIEST_YEAR + 10 * ((decade_slot (y - y % 10) : Nat) : Int) = y - y % 10 := by
  simp only [decade_slot, EARLIEST_YEAR]; omega

theorem lower_decade_index_in_range (years : List (Option Int))
    (hinv : table_invariant years) (y : Int) (hlo : 1790 ≤ y) (hhi : y ≤ 2010) :
    lower_decade_index y (y % 10) years = Res.ok (decade_slot (y - y % 10)) := by
  have h := lower_decade_index_from_hit years hinv (decade_slot (y - y % 10)) DECADES 0
    (Nat.zero_le _) (by have := decade_slot_lt y hlo hhi; omega) (by omega)
  rw [decade_slot_year y hlo] at h
  exact h

theorem sample_years_invariant : table_invariant sample_years := by
  unfold table_invariant; decide

theorem atoi_of_sentinel (cs : List Char) (h : sentinel_check cs = true) : atoi cs = some 0 := by
  match cs, h with
  | [], h => simp [sentinel_check, char_at] at h
  | [c], h =>
    have hc : c = '0' := by simpa [sentinel_check, char_at] using h
    subst hc; decide
  | c :: d :: r, h =>
    simp [sentinel_check, char_at] at h
    obtain ⟨hc, hd⟩ := h
    subst hc
    rcases hd with hd | hd <;> subst hd <;>
      simp [atoi, atoi_signed, isspace, isdigit, digits_value, digit_value, List.takeWhile,
        INT_MIN, INT_MAX]

theorem sentinel_of_atoi (cs : List Char) (y : Int) (h : atoi cs = some y) (hy : y ≠ 0) :
    sentinel_check cs = false := by
  cases hs : sentinel_check cs with
  | false => rfl
  | true => rw [atoi_of_sentinel cs hs] at h; simp at h; exact absurd h.symm hy

theorem sentinel_check_token (t : Token) : sentinel_check t.chars = true ↔ t.chars = ['0'] := by
  obtain ⟨cs, wf⟩ := t
  match cs, wf with
  | [], wf => simp [fits_input] at wf
  | [c], _ => simp [sentinel_check, char_at]
  | c :: d :: r, wf =>
    simp [fits_input, isspace] at wf
    simp [sentinel_check, char_at]
    intro _
    tauto

theorem fmt_d_earliest : fmt_d EARLIEST_YEAR = "1790" := by decide

theorem fmt_d_latest : fmt_d LATEST_YEAR = "2010" := by decide

theorem print_results_text_eq (y : Int) (v : ℚ) (exact : Bool) :
    print_results_text y v exact
      = "\nYear: " ++ fmt_d y ++ "\nPopulation: " ++ fmt_2f v ++ " "
          ++ approx_str exact ++ "\n\n" := by
  apply String.ext
  simp [print_results_text, printf, printf_chars, String.data_append]

theorem range_text_eq (y : Int) :
    range_text y = "Please enter a year >= 1790 and <= 2010 (you entered: " ++ fmt_d y ++ ")\n" := by
  apply String.ext
  simp [range_text, printf, printf_chars, String.data_append, fmt_d_earliest, fmt_d_latest]

theorem invalid_text_eq (input : List Char) :
    invalid_text input
      = "Please enter a valid number for the year (you entered: " ++ String.mk input ++ ")\n" := by
  apply String.ext
  simp [invalid_text, printf, printf_chars, String.data_append]

theorem prompt_text_eq :
    prompt_text = "What year would you like to find or approximate the population of New Jersey for (>= 1790 and <= 2010): " := by
  apply String.ext
  simp [prompt_text, printf, printf_chars, String.data_append, fmt_d_earliest, fmt_d_latest]

theorem input_loop_prompts (years : List (Option Int)) (populations : List (Option ℚ))
    (stdin : List Token) :
    ∃ more, (input_loop years populations stdin).trace = Event.out prompt_text :: more := by
  cases stdin with
  | nil => exact ⟨[], by simp [input_loop]⟩
  | cons t stdin =>
    rw [input_loop]
    simp only []
    split
    · exact ⟨_, rfl⟩
    · split
      · exact ⟨_, rfl⟩
      · split
        · exact ⟨_, rfl⟩
        · split
          · exact ⟨_, rfl⟩
          · split
            · exact ⟨_, rfl⟩
            · split
              · split
                · exact ⟨_, rfl⟩
                · exact ⟨_, rfl⟩
              · split
                · exact ⟨_, rfl⟩
                · split
                  · exact ⟨_, rfl⟩
                  · exact ⟨_, rfl⟩

theorem input_loop_exact (years : List (Option Int)) (populations : List (Option ℚ))
    (t : Token) (stdin : List Token) (y : Int) (p : ℚ)
    (hinv : table_invariant years) (hy : atoi t.chars = some y)
    (hlo : 1790 ≤ y) (hhi : y ≤ 2010) (hmod : y % 10 = 0)
    (hp : populations[decade_slot y]? = some (some p)) :
    input_loop years populations (t :: stdin)
      = Run.after [Event.out prompt_text, Event.call_atoi t.chars,
                   Event.call_lower_decade_index y 0,
                   Event.call_print_results y p true,
                   Event.out (print_results_text y p true)]
          (input_loop years populations stdin) := by
  have hs := sentinel_of_atoi t.chars y hy (by omega)
  have hldi := lower_decade_index_in_range years hinv y hlo hhi
  have hlt := decade_slot_lt y hlo hhi
  rw [hmod] at hldi hlt
  simp only [sub_zero] at hldi hlt
  have hr := read_slot_of_getElem populations _ p hlt hp
  have h0 : y ≠ 0 := by omega
  have hrange : ¬ (y < EARLIEST_YEAR ∨ y > LATEST_YEAR) := by
    simp only [EARLIEST_YEAR, LATEST_YEAR]; omega
  rw [input_loop]
  simp [hs, hy, h0, hrange, tmod_ten y (by omega), hmod, hldi, hr, print_results]

theorem decade_slot_succ (y : Int) (hlo : 1790 ≤ y) :
    decade_slot (y - y % 10 + 10) = decade_slot (y - y % 10) + 1 := by
  simp only [decade_slot, EARLIEST_YEAR]; omega

theorem interpolate_decade (y m : Int) (p0 p1 : ℚ) :
    interpolate ⟨y, y - m, y - m + 10, p0, p1⟩ = Res.ok (p0 + (p1 - p0) * (m : ℚ) / 10) := by
  have h10 : ((y - m + 10 : Int) : ℚ) - ((y - m : Int) : ℚ) = 10 := by push_cast; ring
  have hm : (y : ℚ) - ((y - m : Int) : ℚ) = m := by push_cast; ring
  simp only [interpolate, h10, hm]
  norm_num

theorem interpolation_data_in_range (years : List (Option Int))
    (populations : List (Option ℚ)) (y : Int) (p0 p1 : ℚ)
    (hinv : table_invariant years) (hlo : 1790 ≤ y) (hhi : y ≤ 2010) (hmod : y % 10 ≠ 0)
    (h0 : populations[decade_slot (y - y % 10)]? = some (some p0))
    (h1 : populations[decade_slot (y - y % 10 + 10)]? = some (some p1)) :
    interpolation_data years populations y (decade_slot (y - y % 10))
      = Res.ok ⟨y, y - y % 10, y - y % 10 + 10, p0, p1⟩ := by
  have hlt : decade_slot (y - y % 10) + 1 < DECADES := by
    simp only [decade_slot, EARLIEST_YEAR, DECADES]; omega
  rw [decade_slot_succ y hlo] at h1
  have hx0 := read_slot_years years hinv _ (by omega : decade_slot (y - y % 10) < DECADES)
  have hx1 := read_slot_years years hinv _ hlt
  have hy0 := read_slot_of_getElem populations _ p0 (by omega) h0
  have hy1 := read_slot_of_getElem populations _ p1 hlt h1
  have e1 : EARLIEST_YEAR + 10 * ((decade_slot (y - y % 10) + 1 : Nat) : Int)
      = y - y % 10 + 10 := by
    have := decade_slot_year y hlo; push_cast; omega
  rw [decade_slot_year y hlo] at hx0
  rw [e1] at hx1
  simp [interpolation_data, hx0, hx1, hy0, hy1]

theorem input_loop_interpolated (years : List (Option Int)) (populations : List (Option ℚ))
    (t : Token) (stdin : List Token) (y : Int) (p0 p1 : ℚ)
    (hinv : table_invariant years) (hy : atoi t.chars = some y)
    (hlo : 1790 ≤ y) (hhi : y ≤ 2010) (hmod : y % 10 ≠ 0)
    (h0 : populations[decade_slot (y - y % 10)]? = some (some p0))
    (h1 : populations[decade_slot (y - y % 10 + 10)]? = some (some p1)) :
    input_loop years populations (t :: stdin)
      = Run.after [Event.out prompt_text, Event.call_atoi t.chars,
                   Event.call_lower_decade_index y (y % 10),
                   Event.call_interpolate ⟨y, y - y % 10, y - y % 10 + 10, p0, p1⟩,
                   Event.call_print_results y (p0 + (p1 - p0) * ((y % 10 : Int) : ℚ) / 10) false,
                   Event.out (print_results_text y
                     (p0 + (p1 - p0) * ((y % 10 : Int) : ℚ) / 10) false)]
          (input_loop years populations stdin) := by
  have hs := sentinel_of_atoi t.chars y hy (by omega)
  have hldi := lower_decade_index_in_range years hinv y hlo hhi
  have hd := interpolation_data_in_range years populations y p0 p1 hinv hlo hhi hmod h0 h1
  have hyne : y ≠ 0 := by omega
  have hrange : ¬ (y < EARLIEST_YEAR ∨ y > LATEST_YEAR) := by
    simp only [EARLIEST_YEAR, LATEST_YEAR]; omega
  rw [input_loop]
  simp [hs, hy, hyne, hrange, tmod_ten y (by omega), hmod, hldi, hd, interpolate_decade,
    print_results]

theorem estimate_between (p0 p1 m : ℚ) (h0 : 0 ≤ m) (h1 : m ≤ 10) :
    min p0 p1 ≤ p0 + (p1 - p0) * m / 10 ∧ p0 + (p1 - p0) * m / 10 ≤ max p0 p1 := by
  rcases le_total p0 p1 with h | h
  · rw [min_eq_left h, max_eq_right h]
    constructor <;> nlinarith
  · rw [min_eq_right h, max_eq_left h]
    constructor <;> nlinarith

theorem interpolate_endpoints (x0 x1 : Int) (y0 y1 : ℚ) (hne : x0 ≠ x1) :
    interpolate ⟨x0, x0, x1, y0, y1⟩ = Res.ok y0
      ∧ interpolate ⟨x1, x0, x1, y0, y1⟩ = Res.ok y1 := by
  have hx : ((x1 : Int) : ℚ) - ((x0 : Int) : ℚ) ≠ 0 := by
    intro h
    apply hne
    have : ((x1 : Int) : ℚ) = ((x0 : Int) : ℚ) := by linarith
    exact_mod_cast this.symm
  constructor
  · simp [interpolate, hx]
  · simp only [interpolate, hx, if_false]
    congr 1
    field_simp

theorem round_half_even_intCast (n : Int) : round_half_even (n : ℚ) = n := by
  simp [round_half_even]

theorem fmt_2f_sample : fmt_2f 184139 = "184139.00" := by
  have h : (|184139| * 100 : ℚ) = ((18413900 : Int) : ℚ) := by norm_num
  simp only [fmt_2f, h, round_half_even_intCast]
  norm_num
  decide

theorem fscanf_record (s : Loader) (y : Int) (p : ℚ) (more : List ScanItem)
    (h : s.fp = some (ScanItem.record y p :: more)) :
    fscanf s = (2, { s with years := write_slot s.years s.i y,
                            populations := write_slot s.populations s.i p,
                            fp := some more,
                            trace := s.trace ++ [Event.call_fscanf s.i (some 2)],
                            fault := store_fault s.i }) := by
  simp [fscanf, h]

theorem read_loop_records (recs : List (Int × ℚ)) :
    ∀ (later : List ScanItem) (s : Loader),
      s.fp = some (recs.map (fun r => ScanItem.record r.1 r.2) ++ later) →
      s.i + recs.length = DECADES + 1 → s.i ≤ DECADES →
      (read_loop s).trace
          = s.trace ++ (List.range' s.i recs.length).map (fun k => Event.call_fscanf k (some 2))
        ∧ (read_loop s).fault = some Fault.bounds
        ∧ (read_loop s).fp = some later
        ∧ (read_loop s).i = DECADES := by
  induction recs with
  | nil =>
    intro later s _ hlen hle
    simp at hlen
    omega
  | cons r rs ih =>
    intro later s hfp hlen hle
    have hstep := fscanf_record s r.1 r.2 (rs.map (fun r => ScanItem.record r.1 r.2) ++ later)
      (by simpa using hfp)
    rw [read_loop]
    simp only [hstep]
    by_cases hi : s.i = DECADES
    · have hrs : rs = [] := List.length_eq_zero.mp (by simp at hlen; omega)
      subst hrs
      simp [store_fault, hi, List.range']
    · have hlt : s.i < DECADES := by simp at hlen; omega
      have h := ih later
        { fp := some (rs.map (fun r => ScanItem.record r.1 r.2) ++ later), i := s.i + 1,
          years := write_slot s.years s.i r.1,
          populations := write_slot s.populations s.i r.2,
          trace := s.trace ++ [Event.call_fscanf s.i (some 2)],
          fault := store_fault s.i } rfl (by simp at hlen ⊢; omega) (by simp; omega)
      simp [store_fault, hlt, List.range'] at h ⊢
      exact h

theorem main_unopened (stdin : List Token) :
    main none stdin = ⟨[Event.call_fscanf 0 none], Res.fault Fault.nullstream, stdin⟩ := by
  have h : read_loop (Loader.start none)
      = { (Loader.start none) with trace := [Event.call_fscanf 0 none],
                                   fault := some Fault.nullstream } := by
    rw [read_loop]
    simp [fscanf, Loader.start]
  simp [main, h]

theorem main_status_zero (file : Option (List ScanItem)) (stdin : List Token) (n : Int)
    (h : (main file stdin).status = Res.ok n) : n = 0 := by
  unfold main at h
  simp only [] at h
  split at h
  · simp at h
  · split at h
    · simp at h; exact h.symm
    · simp at h

theorem parse_examples :
    atoi token_2011.chars = some 2011 ∧ atoi token_minus_5.chars = some (-5)
      ∧ atoi token_abc.chars = some 0 ∧ atoi token_00.chars = some 0
      ∧ atoi token_0abc.chars = some 0
      ∧ sentinel_check token_0.chars = true ∧ sentinel_check token_00.chars = false
      ∧ sentinel_check token_0abc.chars = false := by
  decide

theorem write_slot_next {α : Type} (done : List (Option α)) (i : Nat) (v : α)
    (hlen : done.length = i) (hi : i < DECADES) :
    write_slot (done ++ List.replicate (DECADES - i) none) i v
      = (done ++ [some v]) ++ List.replicate (DECADES - (i + 1)) none := by
  have hrep : List.replicate (DECADES - i) (none : Option α)
      = none :: List.replicate (DECADES - (i + 1)) none := by
    have : DECADES - i = (DECADES - (i + 1)) + 1 := by omega
    rw [this, List.replicate_succ]
  rw [write_slot, if_pos hi, hrep, ← hlen]
  simp

theorem read_loop_leading (recs : List (Int × ℚ)) :
    ∀ (rest : List ScanItem) (s : Loader) (dy : List (Option Int)) (dp : List (Option ℚ)),
      s.fp = some (recs.map (fun r => ScanItem.record r.1 r.2) ++ rest) →
      s.fault = none → s.i + recs.length ≤ DECADES →
      dy.length = s.i → dp.length = s.i →
      s.years = dy ++ List.replicate (DECADES - s.i) none →
      s.populations = dp ++ List.replicate (DECADES - s.i) none →
      read_loop s
        = read_loop
            { fp := some rest, i := s.i + recs.length,
              years := (dy ++ recs.map (fun r => some r.1))
                ++ List.replicate (DECADES - (s.i + recs.length)) none,
              populations := (dp ++ recs.map (fun r => some r.2))
                ++ List.replicate (DECADES - (s.i + recs.length)) none,
              trace := s.trace
                ++ (List.range' s.i recs.length).map (fun k => Event.call_fscanf k (some 2)),
              fault := none } := by
  induction recs with
  | nil =>
    intro rest s dy dp hfp hf _ _ _ hy hp
    congr 1
    cases s
    simp at hfp hf hy hp ⊢
    exact ⟨hfp, hy, hp, hf⟩
  | cons r rs ih =>
    intro rest s dy dp hfp hf hle hdy hdp hy hp
    have hlt : s.i < DECADES := by simp at hle; omega
    have hstep := fscanf_record s r.1 r.2 (rs.map (fun r => ScanItem.record r.1 r.2) ++ rest)
      (by simpa using hfp)
    rw [read_loop]
    simp only [hstep, store_fault, if_pos hlt]
    simp only [Option.isSome_none, Bool.false_eq_true, if_false]
    rw [if_pos ⟨by decide, hlt⟩]
    rw [ih rest _ (dy ++ [some r.1]) (dp ++ [some r.2]) rfl rfl
      (by simp at hle ⊢; omega) (by simp [hdy]) (by simp [hdp])
      (by simp only [hy]; exact write_slot_next dy s.i r.1 hdy hlt)
      (by simp only [hp]; exact write_slot_next dp s.i r.2 hdp hlt)]
    congr 1
    simp [List.range'_succ, Nat.add_assoc, Nat.add_comm 1]

theorem read_loop_at_end : ∀ (n : Nat) (s : Loader),
    DECADES - s.i = n → s.i ≤ DECADES → s.fp = some [] → s.fault = none →
    read_loop s
      = { s with
          trace := s.trace ++ (List.range' s.i (DECADES + 1 - s.i)).map
                                (fun k => Event.call_fscanf k (some EOF)),
          i := DECADES } := by
  intro n
  induction n with
  | zero =>
    intro s hn hle hfp hf
    have hi : s.i = DECADES := by omega
    rw [read_loop]
    have hnot : ¬ ((fscanf s).1 ≠ 0 ∧ s.i < DECADES) := by omega
    rw [if_neg hnot]
    cases s
    simp at hfp hf hi
    subst hfp hf hi
    simp [fscanf, List.range']
  | succ n ih =>
    intro s hn hle hfp hf
    have hlt : s.i < DECADES := by omega
    rw [read_loop]
    have hstep : fscanf s
        = (EOF, { s with trace := s.trace ++ [Event.call_fscanf s.i (some EOF)] }) := by
      simp [fscanf, hfp]
    simp only [hstep, hf]
    simp only [Option.isSome_none, Bool.false_eq_true, if_false]
    rw [if_pos ⟨by decide, hlt⟩]
    rw [ih _ (by simp; omega) (by simp; omega) (by simp [hfp]) (by simp [hf])]
    have hr : DECADES + 1 - s.i = (DECADES + 1 - (s.i + 1)) + 1 := by omega
    rw [hr, List.range'_succ]
    simp

theorem read_loop_at_garbage (s : Loader) (later : List ScanItem)
    (hfp : s.fp = some (ScanItem.garbage :: later)) (hf : s.fault = none) :
    read_loop s = { s with trace := s.trace ++ [Event.call_fscanf s.i (some 0)] } := by
  rw [read_loop]
  have hstep : fscanf s
      = (0, { s with trace := s.trace ++ [Event.call_fscanf s.i (some 0)] }) := by
    simp [fscanf, hfp]
  simp [hstep, hf]

theorem read_loop_records_then (recs : List (Int × ℚ)) (rest : List ScanItem)
    (hn : recs.length ≤ DECADES) :
    read_loop (Loader.start (some (recs.map (fun r => ScanItem.record r.1 r.2) ++ rest)))
      = read_loop
          { fp := some rest, i := recs.length,
            years := recs.map (fun r => some r.1)
              ++ List.replicate (DECADES - recs.length) none,
            populations := recs.map (fun r => some r.2)
              ++ List.replicate (DECADES - recs.length) none,
            trace := (List.range' 0 recs.length).map (fun k => Event.call_fscanf k (some 2)),
            fault := none } := by
  have h := read_loop_leading recs rest
    (Loader.start (some (recs.map (fun r => ScanItem.record r.1 r.2) ++ rest))) [] []
    rfl rfl (by simp [Loader.start]; exact hn) rfl rfl (by simp [Loader.start])
    (by simp [Loader.start])
  simpa [Loader.start] using h

theorem query_loop_done (years : List (Option Int)) (populations : List (Option ℚ))
    (stdin : List Token) :
    ∀ done : List Event,
      query_loop years populations stdin done
        = Run.after done (query_loop years populations stdin []) := by
  induction stdin with
  | nil => intro done; simp [query_loop, Run.after]
  | cons t stdin ih =>
    intro done
    rw [query_loop, query_loop]
    by_cases hs : t.chars = ['0']
    · simp [hs, Run.after]
    · simp only [hs, if_false]
      rcases hr : respond years populations t with ⟨es, _ | f⟩
      · simp only []
        rw [ih (done ++ Event.out prompt_text :: es), ih ([] ++ Event.out prompt_text :: es)]
        simp [Run.after]
      · simp [Run.after]

theorem query_loop_step (years : List (Option Int)) (populations : List (Option ℚ))
    (t : Token) (stdin : List Token) (hs : t.chars ≠ ['0']) :
    query_loop years populations (t :: stdin) []
      = match respond years populations t with
        | (es, some f) => ⟨Event.out prompt_text :: es, Ending.fault f, stdin⟩
        | (es, none) =>
          Run.after (Event.out prompt_text :: es) (query_loop years populations stdin []) := by
  rw [query_loop]
  simp only [hs, if_false]
  rcases hr : respond years populations t with ⟨es, _ | f⟩
  · simp only []
    rw [query_loop_done]
    simp
  · simp

theorem input_loop_iterates (years : List (Option Int)) (populations : List (Option ℚ))
    (stdin : List Token) :
    input_loop years populations stdin = query_loop years populations stdin [] := by
  induction stdin with
  | nil => simp [input_loop, query_loop]
  | cons t stdin ih =>
    by_cases hs : t.chars = ['0']
    · have hc := (sentinel_check_token t).2 hs
      rw [input_loop, query_loop]
      simp only [hc, if_true]
      simp [hs]
    · have hc : sentinel_check t.chars = false := by
        cases h : sentinel_check t.chars with
        | false => rfl
        | true => exact absurd ((sentinel_check_token t).1 h) hs
      rw [query_loop_step years populations t stdin hs, input_loop, ← ih]
      simp only [hc, Bool.false_eq_true, if_false, respond]
      split
      · rfl
      · split
        · rfl
        · split
          · rfl
          · split
            · rfl
            · split
              · split
                · rfl
                · rfl
              · split
                · rfl
                · split
                  · rfl
                  · rfl

theorem stdout_text_append (a b : List Event) :
    stdout_text (a ++ b) = stdout_text a ++ stdout_text b := by
  induction a with
  | nil => simp [stdout_text]
  | cons e a ih =>
    cases e <;> simp [stdout_text, ih, String.append_assoc]

theorem stdout_text_session (years : List (Option Int)) (populations : List (Option ℚ))
    (before : List Token) :
    stdout_text (before.foldr
        (fun t acc => Event.out prompt_text :: (respond years populations t).1 ++ acc)
        [Event.out prompt_text])
      = before.foldr
          (fun t acc => prompt_text ++ stdout_text (respond years populations t).1 ++ acc)
          prompt_text := by
  induction before with
  | nil => simp [stdout_text]
  | cons t ts ih =>
    rw [List.foldr_cons, List.foldr_cons]
    show stdout_text (Event.out prompt_text :: ((respond years populations t).1 ++ _))
      = prompt_text ++ stdout_text (respond years populations t).1 ++ _
    rw [show ∀ (x : String) (es : List Event),
          stdout_text (Event.out x :: es) = x ++ stdout_text es from fun _ _ => rfl,
      stdout_text_append, ih, String.append_assoc]

theorem input_loop_session (years : List (Option Int)) (populations : List (Option ℚ))
    (z : Token) (after : List Token) (hz : z.chars = ['0']) :
    ∀ before : List Token,
      (∀ t ∈ before, t.chars ≠ ['0'] ∧ (respond years populations t).2 = none) →
      input_loop years populations (before ++ z :: after)
        = ⟨before.foldr
             (fun t acc => Event.out prompt_text :: (respond years populations t).1 ++ acc)
             [Event.out prompt_text],
           Ending.returned, after⟩ := by
  intro before
  induction before with
  | nil =>
    intro _
    rw [input_loop_iterates]
    simp [query_loop, hz]
  | cons t ts ih =>
    intro hb
    have ht := hb t (List.mem_cons_self t ts)
    have hts := ih (fun u hu => hb u (List.mem_cons_of_mem t hu))
    rw [List.cons_append, input_loop_iterates, query_loop_step years populations t _ ht.1,
      ← input_loop_iterates, hts]
    rcases hr : respond years populations t with ⟨es, f⟩
    have hf : f = none := by have := ht.2; rw [hr] at this; exact this
    subst hf
    simp [Run.after, hr]

theorem digitChar_digit : ∀ k : Nat, k < 10 →
    digit_value (Nat.digitChar k) = (k : Int) ∧ isdigit (Nat.digitChar k) = true := by
  decide

theorem digits_value_append (a b : List Char) :
    digits_value (a ++ b)
      = List.foldl (fun acc c => 10 * acc + digit_value c) (digits_value a) b := by
  simp [digits_value, List.foldl_append]

theorem toDigitsCore_value : ∀ (fuel n : Nat) (ds : List Char), n < fuel →
    List.foldl (fun acc c => 10 * acc + digit_value c) 0 (Nat.toDigitsCore 10 fuel n ds)
      = List.foldl (fun acc c => 10 * acc + digit_value c) (n : Int) ds := by
  intro fuel
  induction fuel with
  | zero => intro n ds h; omega
  | succ fuel ih =>
    intro n ds h
    have hd := (digitChar_digit (n % 10) (Nat.mod_lt n (by decide))).1
    rw [Nat.toDigitsCore]
    split
    · rename_i h0
      have hn : n % 10 = n := by omega
      rw [hn] at hd ⊢
      simp [List.foldl, hd]
    · rename_i h0
      rw [ih (n / 10) _ (by omega)]
      simp only [List.foldl, hd]
      congr 1
      omega

theorem toDigitsCore_digits : ∀ (fuel n : Nat) (ds : List Char),
    ds.all isdigit = true → (Nat.toDigitsCore 10 fuel n ds).all isdigit = true := by
  intro fuel
  induction fuel with
  | zero => intro n ds h; simpa [Nat.toDigitsCore] using h
  | succ fuel ih =>
    intro n ds h
    have hd := (digitChar_digit (n % 10) (Nat.mod_lt n (by decide))).2
    rw [Nat.toDigitsCore]
    split
    · simp [hd, h]
    · exact ih _ _ (by simp [hd, h])

theorem toDigitsCore_keeps : ∀ (fuel n : Nat) (ds : List Char),
    ds ≠ [] → Nat.toDigitsCore 10 fuel n ds ≠ [] := by
  intro fuel
  induction fuel with
  | zero => intro n ds h; simpa [Nat.toDigitsCore] using h
  | succ fuel ih =>
    intro n ds _
    rw [Nat.toDigitsCore]
    split
    · simp
    · exact ih _ _ (by simp)

theorem toDigits_ne_nil (n : Nat) : Nat.toDigits 10 n ≠ [] := by
  rw [Nat.toDigits, Nat.toDigitsCore]
  split
  · simp
  · exact toDigitsCore_keeps _ _ _ (by simp)

theorem toDigits_value (n : Nat) : digits_value (Nat.toDigits 10 n) = (n : Int) := by
  have h := toDigitsCore_value (n + 1) n [] (by omega)
  simpa [digits_value, Nat.toDigits] using h

theorem toDigits_digits (n : Nat) : (Nat.toDigits 10 n).all isdigit = true :=
  toDigitsCore_digits (n + 1) n [] (by simp)

theorem fmt_d_data (m : Nat) : (fmt_d (m : Int)).data = Nat.toDigits 10 m := by
  show (Nat.repr m).data = _
  simp [Nat.repr, List.asString]

theorem digits_value_zeros (z : Nat) : digits_value (List.replicate z '0') = 0 := by
  induction z with
  | zero => rfl
  | succ z ih =>
    rw [List.replicate_succ]
    have h : digits_value ('0' :: List.replicate z '0')
        = List.foldl (fun acc c => 10 * acc + digit_value c) (10 * 0 + digit_value '0')
            (List.replicate z '0') := rfl
    rw [h]
    have h0 : (10 * 0 + digit_value '0' : Int) = 0 := by decide
    rw [h0]
    exact ih

theorem takeWhile_digits (body suffix : List Char) (hb : body.all isdigit = true)
    (hs : ∀ c rest, suffix = c :: rest → isdigit c = false) :
    (body ++ suffix).takeWhile isdigit = body := by
  induction body with
  | nil =>
    cases suffix with
    | nil => rfl
    | cons c rest => simp [List.takeWhile, hs c rest rfl]
  | cons c body ih =>
    simp only [List.all_cons, Bool.and_eq_true] at hb
    simp [List.takeWhile, hb.1, ih hb.2]

theorem atoi_digits (body suffix : List Char) (hne : body ≠ [])
    (hb : body.all isdigit = true)
    (hs : ∀ c rest, suffix = c :: rest → isdigit c = false)
    (hmax : digits_value body ≤ INT_MAX) (hmin : 0 ≤ digits_value body) :
    atoi (body ++ suffix) = some (digits_value body) := by
  cases body with
  | nil => exact absurd rfl hne
  | cons c body =>
    have hc : isdigit c = true := by
      simp only [List.all_cons, Bool.and_eq_true] at hb; exact hb.1
    have hsp : isspace c = false := by
      cases h : isspace c with
      | false => rfl
      | true =>
        simp only [isspace, Bool.or_eq_true, beq_iff_eq] at h
        rcases h with ((((h | h) | h) | h) | h) | h <;> subst h <;> simp [isdigit] at hc
    have hminus : c ≠ '-' := by intro h; subst h; simp [isdigit] at hc
    have hplus : c ≠ '+' := by intro h; subst h; simp [isdigit] at hc
    have htw := takeWhile_digits (c :: body) suffix hb hs
    have hdrop : ((c :: body) ++ suffix).dropWhile isspace = (c :: body) ++ suffix := by
      simp [List.dropWhile, hsp]
    have hsigned : atoi_signed (c :: (body ++ suffix))
        = digits_value (List.takeWhile isdigit (c :: (body ++ suffix))) := by
      unfold atoi_signed
      split
      · rename_i h; injection h with h1 _; exact absurd h1 hminus
      · rename_i h; injection h with h1 _; exact absurd h1 hplus
      · rfl
    rw [List.cons_append] at htw hdrop
    rw [htw] at hsigned
    have hmin2 : INT_MIN ≤ digits_value (c :: body) := by
      simp only [INT_MIN]; omega
    rw [List.cons_append]
    simp only [atoi, hdrop, hsigned]
    rw [if_pos ⟨hmin2, hmax⟩]

theorem atoi_padded (y : Int) (z : Nat) (suffix : List Char)
    (hlo : 0 ≤ y) (hhi : y ≤ INT_MAX)
    (hs : ∀ c rest, suffix = c :: rest → isdigit c = false) :
    atoi (List.replicate z '0' ++ (fmt_d y).data ++ suffix) = some y := by
  obtain ⟨m, rfl⟩ := Int.eq_ofNat_of_zero_le hlo
  rw [fmt_d_data]
  have hval : digits_value (List.replicate z '0' ++ Nat.toDigits 10 m) = (m : Int) := by
    rw [digits_value_append, digits_value_zeros]
    exact toDigits_value m
  have hall : (List.replicate z '0' ++ Nat.toDigits 10 m).all isdigit = true := by
    rw [List.all_append, toDigits_digits, Bool.and_true]
    rw [List.all_eq_true]
    intro c hc
    rw [List.eq_of_mem_replicate hc]
    rfl
  have hne : List.replicate z '0' ++ Nat.toDigits 10 m ≠ [] := by
    intro h
    exact toDigits_ne_nil m (List.append_eq_nil.mp h).2
  have h := atoi_digits _ suffix hne hall hs (by rw [hval]; exact hhi) (by rw [hval]; exact hlo)
  rw [hval] at h
  exact h

theorem respond_same_year (years : List (Option Int)) (populations : List (Option ℚ))
    (u v : Token) (y : Int) (hu : atoi u.chars = some y) (hv : atoi v.chars = some y)
    (hlo : 1790 ≤ y) (hhi : y ≤ 2010) :
    ∃ (rest : List Event) (f : Option Fault),
      respond years populations u
          = (Event.call_atoi u.chars :: Event.call_lower_decade_index y (y % 10) :: rest, f)
        ∧ respond years populations v
          = (Event.call_atoi v.chars :: Event.call_lower_decade_index y (y % 10) :: rest, f) := by
  have h0 : y ≠ 0 := by omega
  have hrange : ¬ (y < EARLIEST_YEAR ∨ y > LATEST_YEAR) := by
    simp only [EARLIEST_YEAR, LATEST_YEAR]; omega
  simp only [respond, hu, hv, h0, hrange, if_false, tmod_ten y (by omega)]
  rcases lower_decade_index y (y % 10) years with k | f
  · by_cases hm : y % 10 = 0
    · simp only [hm, if_true]
      rcases read_slot populations k with p | f
      · exact ⟨_, _, rfl, rfl⟩
      · exact ⟨_, _, rfl, rfl⟩
    · simp only [hm, if_false]
      rcases interpolation_data years populations y k with d | f
      · dsimp only
        rcases interpolate d with w | f
        · exact ⟨_, _, rfl, rfl⟩
        · exact ⟨_, _, rfl, rfl⟩
      · exact ⟨_, _, rfl, rfl⟩
  · exact ⟨_, _, rfl, rfl⟩

theorem input_loop_of_respond (years : List (Option Int)) (populations : List (Option ℚ))
    (u : Token) (stdin : List Token) (es : List Event) (hs : u.chars ≠ ['0'])
    (hr : respond years populations u = (es, none)) :
    input_loop years populations (u :: stdin)
      = Run.after (Event.out prompt_text :: es) (input_loop years populations stdin) := by
  rw [input_loop_iterates, query_loop_step years populations u stdin hs, hr,
    ← input_loop_iterates]

theorem input_loop_of_fault (years : List (Option Int)) (populations : List (Option ℚ))
    (u : Token) (stdin : List Token) (es : List Event) (g : Fault) (hs : u.chars ≠ ['0'])
    (hr : respond years populations u = (es, some g)) :
    input_loop years populations (u :: stdin)
      = ⟨Event.out prompt_text :: es, Ending.fault g, stdin⟩ := by
  rw [input_loop_iterates, query_loop_step years populations u stdin hs, hr]

/-! ## The claims -/

/-- C1: on a table whose slot `i` holds the year `1790 + 10 * i`, a token that
parses to a year `y` of `[1790, 2010]` with `y mod 10 = 0` makes `input_loop`
call `print_results` with the population recorded in slot `(y - 1790) / 10` and
`exact = true`; the text written carries no qualifier; the loop then goes on
with the rest of the input. -/
theorem exact_year_reported (years : List (Option Int)) (populations : List (Option ℚ))
    (t : Token) (stdin : List Token) (y : Int) (p : ℚ)
    (hinv : table_invariant years) (hy : atoi t.chars = some y)
    (hlo : 1790 ≤ y) (hhi : y ≤ 2010) (hmod : y % 10 = 0)
    (hp : populations[decade_slot y]? = some (some p)) :
    input_loop years populations (t :: stdin)
        = Run.after [Event.out prompt_text, Event.call_atoi t.chars,
                     Event.call_lower_decade_index y 0,
                     Event.call_print_results y p true,
                     Event.out (print_results_text y p true)]
            (input_loop years populations stdin)
      ∧ print_results_text y p true
          = "\nYear: " ++ fmt_d y ++ "\nPopulation: " ++ fmt_2f p ++ " \n\n" := by
  refine ⟨input_loop_exact years populations t stdin y p hinv hy hlo hhi hmod hp, ?_⟩
  apply String.ext
  simp [print_results_text, printf, printf_chars, approx_str, String.data_append]

theorem exact_year_reported_witness :
    table_invariant sample_years ∧ atoi token_1790.chars = some 1790
      ∧ sample_populations[decade_slot 1790]? = some (some 184139)
      ∧ (input_loop sample_years sample_populations [token_1790, token_0]
            = Run.after [Event.out prompt_text, Event.call_atoi token_1790.chars,
                         Event.call_lower_decade_index 1790 0,
                         Event.call_print_results 1790 184139 true,
                         Event.out (print_results_text 1790 184139 true)]
                (input_loop sample_years sample_populations [token_0])
          ∧ print_results_text 1790 184139 true
              = "\nYear: " ++ fmt_d 1790 ++ "\nPopulation: " ++ fmt_2f 184139 ++ " \n\n") :=
  ⟨sample_years_invariant, by decide, by rfl,
   exact_year_reported sample_years sample_populations token_1790 [token_0] 1790 184139
     sample_years_invariant (by decide) (by decide) (by decide) (by decide) (by rfl)⟩

/-- C2: on a table whose slot `i` holds the year `1790 + 10 * i`, a token that
parses to a year `y` of `[1790, 2010]` with `y mod 10 ≠ 0` makes `input_loop`
call `interpolate` on the two enclosing decades `lower = y - y mod 10` and
`upper = lower + 10`; the value returned, which is the value passed to
`print_results`, is `pop(lower) + (pop(upper) - pop(lower)) * (y mod 10) / 10`
in exact arithmetic, and it is printed with `exact = false` and the qualifier
`(approximately)`. -/
theorem interpolated_year_reported (years : List (Option Int))
    (populations : List (Option ℚ)) (t : Token) (stdin : List Token) (y : Int) (p0 p1 : ℚ)
    (hinv : table_invariant years) (hy : atoi t.chars = some y)
    (hlo : 1790 ≤ y) (hhi : y ≤ 2010) (hmod : y % 10 ≠ 0)
    (h0 : populations[decade_slot (y - y % 10)]? = some (some p0))
    (h1 : populations[decade_slot (y - y % 10 + 10)]? = some (some p1)) :
    input_loop years populations (t :: stdin)
        = Run.after [Event.out prompt_text, Event.call_atoi t.chars,
                     Event.call_lower_decade_index y (y % 10),
                     Event.call_interpolate ⟨y, y - y % 10, y - y % 10 + 10, p0, p1⟩,
                     Event.call_print_results y
                       (p0 + (p1 - p0) * ((y % 10 : Int) : ℚ) / 10) false,
                     Event.out (print_results_text y
                       (p0 + (p1 - p0) * ((y % 10 : Int) : ℚ) / 10) false)]
            (input_loop years populations stdin)
      ∧ interpolate ⟨y, y - y % 10, y - y % 10 + 10, p0, p1⟩
          = Res.ok (p0 + (p1 - p0) * ((y % 10 : Int) : ℚ) / 10)
      ∧ ∀ v : ℚ, print_results_text y v false
          = "\nYear: " ++ fmt_d y ++ "\nPopulation: " ++ fmt_2f v ++ " (approximately)\n\n" := by
  refine ⟨input_loop_interpolated years populations t stdin y p0 p1 hinv hy hlo hhi hmod h0 h1,
    interpolate_decade y (y % 10) p0 p1, ?_⟩
  intro v
  apply String.ext
  simp [print_results_text, printf, printf_chars, approx_str, String.data_append]

theorem interpolated_year_reported_witness :
    table_invariant sample_years ∧ atoi token_1795.chars = some 1795
      ∧ sample_populations[decade_slot (1795 - 1795 % 10)]? = some (some 184139)
      ∧ sample_populations[decade_slot (1795 - 1795 % 10 + 10)]? = some (some 211149)
      ∧ (input_loop sample_years sample_populations [token_1795, token_0]
            = Run.after [Event.out prompt_text, Event.call_atoi token_1795.chars,
                         Event.call_lower_decade_index 1795 (1795 % 10),
                         Event.call_interpolate
                           ⟨1795, 1795 - 1795 % 10, 1795 - 1795 % 10 + 10, 184139, 211149⟩,
                         Event.call_print_results 1795
                           (184139 + (211149 - 184139) * ((1795 % 10 : Int) : ℚ) / 10) false,
                         Event.out (print_results_text 1795
                           (184139 + (211149 - 184139) * ((1795 % 10 : Int) : ℚ) / 10) false)]
                (input_loop sample_years sample_populations [token_0])
          ∧ interpolate ⟨1795, 1795 - 1795 % 10, 1795 - 1795 % 10 + 10, 184139, 211149⟩
              = Res.ok (184139 + (211149 - 184139) * ((1795 % 10 : Int) : ℚ) / 10)
          ∧ ∀ v : ℚ, print_results_text 1795 v false
              = "\nYear: " ++ fmt_d 1795 ++ "\nPopulation: " ++ fmt_2f v
                  ++ " (approximately)\n\n") :=
  ⟨sample_years_invariant, by decide, by rfl, by rfl,
   interpolated_year_reported sample_years sample_populations token_1795 [token_0] 1795
     184139 211149 sample_years_invariant (by decide) (by decide) (by decide) (by decide)
     (by rfl) (by rfl)⟩

/-- C3: on a table whose slot `i` holds the year `1790 + 10 * i`, for a year `y`
of `[1790, 2010]` with `y mod 10 ≠ 0` the value `input_loop` passes to
`print_results` lies between the populations of the two enclosing decades,
bounds included, in exact arithmetic. -/
theorem estimate_within_decades (years : List (Option Int))
    (populations : List (Option ℚ)) (t : Token) (stdin : List Token) (y : Int) (p0 p1 : ℚ)
    (hinv : table_invariant years) (hy : atoi t.chars = some y)
    (hlo : 1790 ≤ y) (hhi : y ≤ 2010) (hmod : y % 10 ≠ 0)
    (h0 : populations[decade_slot (y - y % 10)]? = some (some p0))
    (h1 : populations[decade_slot (y - y % 10 + 10)]? = some (some p1)) :
    ∃ v : ℚ,
      input_loop years populations (t :: stdin)
          = Run.after [Event.out prompt_text, Event.call_atoi t.chars,
                       Event.call_lower_decade_index y (y % 10),
                       Event.call_interpolate ⟨y, y - y % 10, y - y % 10 + 10, p0, p1⟩,
                       Event.call_print_results y v false,
                       Event.out (print_results_text y v false)]
              (input_loop years populations stdin)
        ∧ min p0 p1 ≤ v ∧ v ≤ max p0 p1 := by
  have hm0 : (0 : ℚ) ≤ ((y % 10 : Int) : ℚ) := by
    exact_mod_cast (by omega : (0 : Int) ≤ y % 10)
  have hm1 : ((y % 10 : Int) : ℚ) ≤ 10 := by
    exact_mod_cast (by omega : y % 10 ≤ (10 : Int))
  exact ⟨p0 + (p1 - p0) * ((y % 10 : Int) : ℚ) / 10,
    input_loop_interpolated years populations t stdin y p0 p1 hinv hy hlo hhi hmod h0 h1,
    estimate_between p0 p1 _ hm0 hm1⟩

theorem estimate_within_decades_witness :
    table_invariant sample_years ∧ atoi token_2009.chars = some 2009
      ∧ sample_populations[decade_slot (2009 - 2009 % 10)]? = some (some 8414350)
      ∧ sample_populations[decade_slot (2009 - 2009 % 10 + 10)]? = some (some 8791894)
      ∧ ∃ v : ℚ,
          input_loop sample_years sample_populations [token_2009]
              = Run.after [Event.out prompt_text, Event.call_atoi token_2009.chars,
                           Event.call_lower_decade_index 2009 (2009 % 10),
                           Event.call_interpolate
                             ⟨2009, 2009 - 2009 % 10, 2009 - 2009 % 10 + 10, 8414350, 8791894⟩,
                           Event.call_print_results 2009 v false,
                           Event.out (print_results_text 2009 v false)]
                  (input_loop sample_years sample_populations [])
            ∧ min 8414350 8791894 ≤ v ∧ v ≤ max 8414350 8791894 :=
  ⟨sample_years_invariant, by decide, by rfl, by rfl,
   estimate_within_decades sample_years sample_populations token_2009 [] 2009
     8414350 8791894 sample_years_invariant (by decide) (by decide) (by decide) (by decide)
     (by rfl) (by rfl)⟩

/-- C4: when the two decades differ, `interpolate` returns the population of
the lower decade at the lower decade and the population of the upper decade at
the upper decade, in exact arithmetic; hence on a table whose slot `i` holds
the year `1790 + 10 * i`, at an interior decade (slot `i` with `1 ≤ i ≤ 21`) the
estimate of the segment that ends there and the estimate of the segment that
starts there both equal the population recorded for that decade. -/
theorem interpolate_at_decades (x0 x1 : Int) (y0 y1 : ℚ) (hne : x0 ≠ x1)
    (years : List (Option Int)) (populations : List (Option ℚ)) (i : Nat) (pa pb pc : ℚ)
    (hinv : table_invariant years) (hi1 : 1 ≤ i) (hi2 : i + 1 < DECADES)
    (ha : populations[i - 1]? = some (some pa)) (hb : populations[i]? = some (some pb))
    (hc : populations[i + 1]? = some (some pc)) :
    interpolate ⟨x0, x0, x1, y0, y1⟩ = Res.ok y0
      ∧ interpolate ⟨x1, x0, x1, y0, y1⟩ = Res.ok y1
      ∧ (∃ d, interpolation_data years populations (EARLIEST_YEAR + 10 * (i : Int)) (i - 1)
                = Res.ok d ∧ interpolate d = Res.ok pb)
      ∧ (∃ d, interpolation_data years populations (EARLIEST_YEAR + 10 * (i : Int)) i
                = Res.ok d ∧ interpolate d = Res.ok pb) := by
  have hya := read_slot_years years hinv (i - 1) (by omega)
  have hyb := read_slot_years years hinv i (by omega)
  have hyc := read_slot_years years hinv (i + 1) hi2
  have hpa := read_slot_of_getElem populations (i - 1) pa (by omega) ha
  have hpb := read_slot_of_getElem populations i pb (by omega) hb
  have hpc := read_slot_of_getElem populations (i + 1) pc hi2 hc
  have hi : i - 1 + 1 = i := by omega
  have hl : EARLIEST_YEAR + 10 * ((i - 1 : Nat) : Int) ≠ EARLIEST_YEAR + 10 * (i : Int) := by
    omega
  have hr : EARLIEST_YEAR + 10 * (i : Int) ≠ EARLIEST_YEAR + 10 * ((i + 1 : Nat) : Int) := by
    omega
  refine ⟨(interpolate_endpoints x0 x1 y0 y1 hne).1, (interpolate_endpoints x0 x1 y0 y1 hne).2,
    ⟨⟨EARLIEST_YEAR + 10 * (i : Int), EARLIEST_YEAR + 10 * ((i - 1 : Nat) : Int),
      EARLIEST_YEAR + 10 * (i : Int), pa, pb⟩, ?_, (interpolate_endpoints _ _ pa pb hl).2⟩,
    ⟨⟨EARLIEST_YEAR + 10 * (i : Int), EARLIEST_YEAR + 10 * (i : Int),
      EARLIEST_YEAR + 10 * ((i + 1 : Nat) : Int), pb, pc⟩, ?_,
      (interpolate_endpoints _ _ pb pc hr).1⟩⟩
  · simp only [interpolation_data, hi, hya, hyb, hpa, hpb]
  · simp only [interpolation_data, hyb, hyc, hpb, hpc]

theorem interpolate_at_decades_witness :
    (1790 : Int) ≠ 1800 ∧ table_invariant sample_years
      ∧ (interpolate ⟨1790, 1790, 1800, 184139, 211149⟩ = Res.ok 184139
          ∧ interpolate ⟨1800, 1790, 1800, 184139, 211149⟩ = Res.ok 211149
          ∧ (∃ d, interpolation_data sample_years sample_populations
                    (EARLIEST_YEAR + 10 * ((1 : Nat) : Int)) (1 - 1) = Res.ok d
                  ∧ interpolate d = Res.ok 211149)
          ∧ (∃ d, interpolation_data sample_years sample_populations
                    (EARLIEST_YEAR + 10 * ((1 : Nat) : Int)) 1 = Res.ok d
                  ∧ interpolate d = Res.ok 211149)) :=
  ⟨by decide, sample_years_invariant,
   interpolate_at_decades 1790 1800 184139 211149 (by decide) sample_years sample_populations
     1 184139 211149 245562 sample_years_invariant (by decide) (by decide)
     (by rfl) (by rfl) (by rfl)⟩

/-- C5: a token that parses to a non-zero year `y` with `y < 1790` or
`y > 2010` (negative years included) makes `input_loop` write the out-of-range
message, which names the bounds 1790 and 2010 and the year `y`; between the
prompt and the next prompt nothing else happens (no call of
`lower_decade_index`, `interpolate` or `print_results`), and the loop goes on
with the next prompt. -/
theorem out_of_range_reported (years : List (Option Int)) (populations : List (Option ℚ))
    (t : Token) (stdin : List Token) (y : Int)
    (hy : atoi t.chars = some y) (h0 : y ≠ 0) (hr : y < 1790 ∨ 2010 < y) :
    input_loop years populations (t :: stdin)
        = Run.after [Event.out prompt_text, Event.call_atoi t.chars,
                     Event.out (range_text y)]
            (input_loop years populations stdin)
      ∧ range_text y
          = "Please enter a year >= 1790 and <= 2010 (you entered: " ++ fmt_d y ++ ")\n"
      ∧ ∃ more, (input_loop years populations stdin).trace = Event.out prompt_text :: more := by
  refine ⟨?_, range_text_eq y, input_loop_prompts years populations stdin⟩
  have hs := sentinel_of_atoi t.chars y hy h0
  have hrange : y < EARLIEST_YEAR ∨ y > LATEST_YEAR := by
    simp only [EARLIEST_YEAR, LATEST_YEAR]; omega
  rw [input_loop]
  simp [hs, hy, h0, hrange]

theorem out_of_range_reported_witness :
    atoi token_1789.chars = some 1789 ∧ (1789 : Int) ≠ 0 ∧ ((1789 : Int) < 1790 ∨ (2010 : Int) < 1789)
      ∧ (input_loop sample_years sample_populations [token_1789, token_0]
            = Run.after [Event.out prompt_text, Event.call_atoi token_1789.chars,
                         Event.out (range_text 1789)]
                (input_loop sample_years sample_populations [token_0])
          ∧ range_text 1789
              = "Please enter a year >= 1790 and <= 2010 (you entered: " ++ fmt_d 1789 ++ ")\n"
          ∧ ∃ more, (input_loop sample_years sample_populations [token_0]).trace
                      = Event.out prompt_text :: more) :=
  ⟨by decide, by decide, by decide,
   out_of_range_reported sample_years sample_populations token_1789 [token_0] 1789
     (by decide) (by decide) (by decide)⟩

/-- C6: a token other than `0` that `atoi` converts to 0 (`abc`, `hello`, `00`,
`0abc`) makes `input_loop` write the invalid-number message with the token
copied into it; no population is reported, the function does not return, and
the loop goes on with the next prompt. -/
theorem invalid_number_reported (years : List (Option Int)) (populations : List (Option ℚ))
    (t : Token) (stdin : List Token)
    (hne : t.chars ≠ ['0']) (hz : atoi t.chars = some 0) :
    input_loop years populations (t :: stdin)
        = Run.after [Event.out prompt_text, Event.call_atoi t.chars,
                     Event.out (invalid_text t.chars)]
            (input_loop years populations stdin)
      ∧ invalid_text t.chars
          = "Please enter a valid number for the year (you entered: "
              ++ String.mk t.chars ++ ")\n"
      ∧ ∃ more, (input_loop years populations stdin).trace = Event.out prompt_text :: more := by
  refine ⟨?_, invalid_text_eq t.chars, input_loop_prompts years populations stdin⟩
  have hs : sentinel_check t.chars = false := by
    cases h : sentinel_check t.chars with
    | false => rfl
    | true => exact absurd ((sentinel_check_token t).1 h) hne
  rw [input_loop]
  simp [hs, hz]

theorem invalid_number_reported_witness :
    token_0abc.chars ≠ ['0'] ∧ atoi token_0abc.chars = some 0
      ∧ (input_loop sample_years sample_populations [token_0abc, token_0]
            = Run.after [Event.out prompt_text, Event.call_atoi token_0abc.chars,
                         Event.out (invalid_text token_0abc.chars)]
                (input_loop sample_years sample_populations [token_0])
          ∧ invalid_text token_0abc.chars
              = "Please enter a valid number for the year (you entered: "
                  ++ String.mk token_0abc.chars ++ ")\n"
          ∧ ∃ more, (input_loop sample_years sample_populations [token_0]).trace
                      = Event.out prompt_text :: more) :=
  ⟨by decide, by decide,
   invalid_number_reported sample_years sample_populations token_0abc [token_0]
     (by decide) (by decide)⟩

/-- C7: the test of line 98 succeeds exactly on the token `0`. On that token
`input_loop` returns having written nothing after the prompt and having read
no further token; on every other token (`00`, `0abc`, `0a` among them) the test
fails and the next step is the call of `atoi` on the token. -/
theorem sentinel_exactly_zero (years : List (Option Int)) (populations : List (Option ℚ))
    (t : Token) (stdin : List Token) :
    (t.chars = ['0'] ∧ sentinel_check t.chars = true
        ∧ input_loop years populations (t :: stdin)
            = ⟨[Event.out prompt_text], Ending.returned, stdin⟩)
      ∨ (t.chars ≠ ['0'] ∧ sentinel_check t.chars = false
          ∧ ∃ more ending unread,
              input_loop years populations (t :: stdin)
                = ⟨Event.out prompt_text :: Event.call_atoi t.chars :: more, ending, unread⟩) := by
  by_cases h : t.chars = ['0']
  · left
    have hs := (sentinel_check_token t).2 h
    refine ⟨h, hs, ?_⟩
    rw [input_loop]
    simp [hs]
  · right
    have hs : sentinel_check t.chars = false := by
      cases h' : sentinel_check t.chars with
      | false => rfl
      | true => exact absurd ((sentinel_check_token t).1 h') h
    refine ⟨h, hs, ?_⟩
    rw [input_loop]
    simp only [hs]
    simp only [Bool.false_eq_true, if_false]
    split
    · exact ⟨_, _, _, rfl⟩
    · split
      · exact ⟨_, _, _, rfl⟩
      · split
        · exact ⟨_, _, _, rfl⟩
        · split
          · exact ⟨_, _, _, rfl⟩
          · split
            · split
              · exact ⟨_, _, _, rfl⟩
              · exact ⟨_, _, _, rfl⟩
            · split
              · exact ⟨_, _, _, rfl⟩
              · split
                · exact ⟨_, _, _, rfl⟩
                · exact ⟨_, _, _, rfl⟩

/-- C8, as the code has it: `print_results` writes `"\nYear: "`, the year,
`"\nPopulation: "`, the value to two decimals, one space, the qualifier and
`"\n\n"`, the qualifier being empty for an exact result and `(approximately)`
for an approximate one; so a space always follows the value. -/
theorem print_results_format (y : Int) (v : ℚ) (exact : Bool) :
    print_results y v exact
      = [Event.call_print_results y v exact,
         Event.out ("\nYear: " ++ fmt_d y ++ "\nPopulation: " ++ fmt_2f v ++ " "
            ++ (if exact then "" else "(approximately)") ++ "\n\n")] := by
  have htext : print_results_text y v exact
      = "\nYear: " ++ fmt_d y ++ "\nPopulation: " ++ fmt_2f v ++ " "
          ++ (if exact then "" else "(approximately)") ++ "\n\n" := by
    apply String.ext
    simp [print_results_text, printf, printf_chars, approx_str, String.data_append]
  rw [print_results, htext]

/-- C8 fails as stated: for the exact result of 1790 with population 184139 the
text ends in `184139.00 \n\n`, a space standing between the value and the
line break. -/
theorem print_results_exact_space :
    print_results_text 1790 184139 true = "\nYear: 1790\nPopulation: 184139.00 \n\n"
      ∧ print_results_text 1790 184139 true
          ≠ "\nYear: " ++ fmt_d 1790 ++ "\nPopulation: " ++ fmt_2f 184139 ++ "\n\n" := by
  have hd : fmt_d 1790 = "1790" := by decide
  rw [print_results_text_eq, fmt_2f_sample, hd]
  constructor <;> decide

/-- C9, at the failing input: on a file whose first 24 items are well-formed
records the loop makes 24 calls of `fscanf`, each returning 2; the last one
is made with `i = 23`, takes the 24th record out of the file and stores it
through `&years[23]` and `&populations[23]`, outside both arrays. -/
theorem read_loop_past_bound (recs : List (Int × ℚ)) (later : List ScanItem)
    (hlen : recs.length = DECADES + 1) :
    (read_loop (Loader.start
        (some (recs.map (fun r => ScanItem.record r.1 r.2) ++ later)))).trace
        = (List.range' 0 (DECADES + 1)).map (fun k => Event.call_fscanf k (some 2))
      ∧ (read_loop (Loader.start
          (some (recs.map (fun r => ScanItem.record r.1 r.2) ++ later)))).fault
          = some Fault.bounds
      ∧ (read_loop (Loader.start
          (some (recs.map (fun r => ScanItem.record r.1 r.2) ++ later)))).fp = some later
      ∧ (read_loop (Loader.start
          (some (recs.map (fun r => ScanItem.record r.1 r.2) ++ later)))).i = DECADES := by
  have h := read_loop_records recs later
    (Loader.start (some (recs.map (fun r => ScanItem.record r.1 r.2) ++ later))) rfl
    (by simp [Loader.start, hlen]) (by simp [Loader.start])
  rw [hlen] at h
  simpa [Loader.start] using h

theorem read_loop_past_bound_witness :
    (sample_records 24).length = DECADES + 1
      ∧ ((read_loop (Loader.start
            (some ((sample_records 24).map (fun r => ScanItem.record r.1 r.2) ++ [])))).trace
            = (List.range' 0 (DECADES + 1)).map (fun k => Event.call_fscanf k (some 2))
          ∧ (read_loop (Loader.start
              (some ((sample_records 24).map (fun r => ScanItem.record r.1 r.2) ++ [])))).fault
              = some Fault.bounds
          ∧ (read_loop (Loader.start
              (some ((sample_records 24).map (fun r => ScanItem.record r.1 r.2) ++ [])))).fp
              = some []
          ∧ (read_loop (Loader.start
              (some ((sample_records 24).map (fun r => ScanItem.record r.1 r.2) ++ [])))).i
              = DECADES) :=
  ⟨by decide, read_loop_past_bound (sample_records 24) [] (by decide)⟩

/-- C10, as the code has it: when the file cannot be opened `main` does not
notice. It writes nothing, hands the null stream to the first call of
`fscanf`, where the behaviour is undefined, and has not entered the query loop
by then; and whenever `main` returns, the status it returns is 0. -/
theorem unopened_file_unchecked (stdin : List Token) :
    main none stdin = ⟨[Event.call_fscanf 0 none], Res.fault Fault.nullstream, stdin⟩
      ∧ stdout_text (main none stdin).trace = ""
      ∧ Event.call_input_loop ∉ (main none stdin).trace
      ∧ ∀ (file : Option (List ScanItem)) (input : List Token) (n : Int),
          (main file input).status = Res.ok n → n = 0 := by
  refine ⟨main_unopened stdin, ?_, ?_, fun file input n h => main_status_zero file input n h⟩
  · rw [main_unopened]; rfl
  · rw [main_unopened]; simp

/-- C10 fails as stated: with no file and the input `0`, the only step of the
execution is the call of `fscanf` on the null stream; nothing is written, so
there is no diagnostic, and the execution ends in that call, not in an exit
status chosen by the program. -/
theorem unopened_file_no_diagnostic :
    (main none [token_0]).trace = [Event.call_fscanf 0 none]
      ∧ stdout_text (main none [token_0]).trace = ""
      ∧ (main none [token_0]).status = Res.fault Fault.nullstream := by
  rw [main_unopened]
  exact ⟨rfl, rfl, rfl⟩

/-- C11: on a table whose slot `i` holds the year `1790 + 10 * i`, for every
year `y` of `[1790, 2010]` the loop of `lower_decade_index(y, y mod 10, years)`
finds its match and returns `(y - y mod 10 - 1790) / 10`, an index of `0 .. 22`
whose slot holds the lower decade; the statement after the loop,
`__builtin_unreachable()`, is not reached. -/
theorem lower_decade_index_found (years : List (Option Int)) (y : Int)
    (hinv : table_invariant years) (hlo : 1790 ≤ y) (hhi : y ≤ 2010) :
    lower_decade_index y (y % 10) years = Res.ok ((y - y % 10 - 1790) / 10).toNat
      ∧ ((y - y % 10 - 1790) / 10).toNat < DECADES
      ∧ years[((y - y % 10 - 1790) / 10).toNat]? = some (some (y - y % 10))
      ∧ lower_decade_index y (y.tmod 10) years ≠ Res.fault Fault.unreachable := by
  have h := lower_decade_index_in_range years hinv y hlo hhi
  have hlt := decade_slot_lt y hlo hhi
  have hyr := decade_slot_year y hlo
  have hslot := hinv _ hlt
  rw [hyr] at hslot
  simp only [decade_slot, EARLIEST_YEAR] at h hlt hslot
  refine ⟨h, hlt, hslot, ?_⟩
  rw [tmod_ten y (by omega), h]
  simp

theorem lower_decade_index_found_witness :
    table_invariant sample_years ∧ (1790 : Int) ≤ 1804 ∧ (1804 : Int) ≤ 2010
      ∧ (lower_decade_index 1804 (1804 % 10) sample_years
            = Res.ok ((1804 - 1804 % 10 - 1790) / 10 : Int).toNat
          ∧ ((1804 - 1804 % 10 - 1790) / 10 : Int).toNat < DECADES
          ∧ sample_years[((1804 - 1804 % 10 - 1790) / 10 : Int).toNat]?
              = some (some (1804 - 1804 % 10))
          ∧ lower_decade_index 1804 ((1804 : Int).tmod 10) sample_years
              ≠ Res.fault Fault.unreachable) :=
  ⟨sample_years_invariant, by decide, by decide,
   lower_decade_index_found sample_years 1804 sample_years_invariant (by decide) (by decide)⟩

/-- C12: the recursive `input_loop` and the iteration `query_loop` over the
tokens produce the same run, for every table and every input. When the input
holds the token `0`, and no query before it leaves defined behaviour, the
trace is, for each token before the first `0` in order, the prompt followed by
`respond` of the two arrays and that token, then one last prompt; the function
returns, and the tokens after that `0` are unread. `respond` takes the arrays
and the token and nothing else, and every round is given the same arrays. -/
theorem recursion_is_iteration (years : List (Option Int)) (populations : List (Option ℚ))
    (before : List Token) (z : Token) (after : List Token) (hz : z.chars = ['0'])
    (hb : ∀ t ∈ before, t.chars ≠ ['0'] ∧ (respond years populations t).2 = none) :
    (∀ stdin : List Token,
        input_loop years populations stdin = query_loop years populations stdin [])
      ∧ input_loop years populations (before ++ z :: after)
          = ⟨before.foldr
               (fun t acc => Event.out prompt_text :: (respond years populations t).1 ++ acc)
               [Event.out prompt_text],
             Ending.returned, after⟩
      ∧ stdout_text (input_loop years populations (before ++ z :: after)).trace
          = before.foldr
              (fun t acc => prompt_text ++ stdout_text (respond years populations t).1 ++ acc)
              prompt_text := by
  have h := input_loop_session years populations z after hz before hb
  refine ⟨input_loop_iterates years populations, h, ?_⟩
  rw [h]
  exact stdout_text_session years populations before

theorem recursion_is_iteration_witness :
    token_0.chars = ['0']
      ∧ (∀ t ∈ [token_1790, token_abc, token_2011],
          t.chars ≠ ['0'] ∧ (respond sample_years sample_populations t).2 = none)
      ∧ ((∀ stdin : List Token,
            input_loop sample_years sample_populations stdin
              = query_loop sample_years sample_populations stdin [])
          ∧ input_loop sample_years sample_populations
                ([token_1790, token_abc, token_2011] ++ token_0 :: [token_1795])
              = ⟨[token_1790, token_abc, token_2011].foldr
                   (fun t acc => Event.out prompt_text
                      :: (respond sample_years sample_populations t).1 ++ acc)
                   [Event.out prompt_text],
                 Ending.returned, [token_1795]⟩
          ∧ stdout_text (input_loop sample_years sample_populations
                ([token_1790, token_abc, token_2011] ++ token_0 :: [token_1795])).trace
              = [token_1790, token_abc, token_2011].foldr
                  (fun t acc => prompt_text
                     ++ stdout_text (respond sample_years sample_populations t).1 ++ acc)
                  prompt_text) :=
  ⟨by decide, by decide,
   recursion_is_iteration sample_years sample_populations
     [token_1790, token_abc, token_2011] token_0 [token_1795] (by decide) (by decide)⟩

/-- C13, at the failing input: on a file of `n < 23` well-formed records and
nothing else, the `n` calls of `fscanf` that read the records are followed by
`24 - n` calls that return `EOF`; the loop goes on through them, and `i` is 23,
not `n`, when it exits. -/
theorem read_loop_counts_past_end (recs : List (Int × ℚ)) (hn : recs.length < DECADES) :
    read_loop (Loader.start (some (recs.map (fun r => ScanItem.record r.1 r.2))))
      = { fp := some [], i := DECADES,
          years := recs.map (fun r => some r.1)
            ++ List.replicate (DECADES - recs.length) none,
          populations := recs.map (fun r => some r.2)
            ++ List.replicate (DECADES - recs.length) none,
          trace := (List.range' 0 recs.length).map (fun k => Event.call_fscanf k (some 2))
            ++ (List.range' recs.length (DECADES + 1 - recs.length)).map
                 (fun k => Event.call_fscanf k (some EOF)),
          fault := none } := by
  have h := read_loop_records_then recs [] (by omega)
  rw [List.append_nil] at h
  rw [h, read_loop_at_end (DECADES - recs.length) _ rfl (by simp; omega) rfl rfl]

theorem read_loop_counts_past_end_witness :
    (sample_records 5).length < DECADES
      ∧ read_loop (Loader.start
            (some ((sample_records 5).map (fun r => ScanItem.record r.1 r.2))))
          = { fp := some [], i := DECADES,
              years := (sample_records 5).map (fun r => some r.1)
                ++ List.replicate (DECADES - (sample_records 5).length) none,
              populations := (sample_records 5).map (fun r => some r.2)
                ++ List.replicate (DECADES - (sample_records 5).length) none,
              trace := (List.range' 0 (sample_records 5).length).map
                         (fun k => Event.call_fscanf k (some 2))
                ++ (List.range' (sample_records 5).length
                      (DECADES + 1 - (sample_records 5).length)).map
                     (fun k => Event.call_fscanf k (some EOF)),
              fault := none } :=
  ⟨by decide, read_loop_counts_past_end (sample_records 5) (by decide)⟩

/-- C14: on a table whose slot `i` holds the year `1790 + 10 * i`, for a year
`y` of `[1790, 2010]` with `y mod 10 = 5` the estimate `input_loop` reports is
the mean `(pop(y - 5) + pop(y + 5)) / 2` of the populations of the two
enclosing decades, in exact arithmetic, and it is reported as approximate. -/
theorem midpoint_year_reported (years : List (Option Int)) (populations : List (Option ℚ))
    (t : Token) (stdin : List Token) (y : Int) (p0 p1 : ℚ)
    (hinv : table_invariant years) (hy : atoi t.chars = some y)
    (hlo : 1790 ≤ y) (hhi : y ≤ 2010) (hmod : y % 10 = 5)
    (h0 : populations[decade_slot (y - 5)]? = some (some p0))
    (h1 : populations[decade_slot (y + 5)]? = some (some p1)) :
    input_loop years populations (t :: stdin)
        = Run.after [Event.out prompt_text, Event.call_atoi t.chars,
                     Event.call_lower_decade_index y 5,
                     Event.call_interpolate ⟨y, y - 5, y + 5, p0, p1⟩,
                     Event.call_print_results y ((p0 + p1) / 2) false,
                     Event.out (print_results_text y ((p0 + p1) / 2) false)]
            (input_loop years populations stdin)
      ∧ interpolate ⟨y, y - 5, y + 5, p0, p1⟩ = Res.ok ((p0 + p1) / 2)
      ∧ print_results_text y ((p0 + p1) / 2) false
          = "\nYear: " ++ fmt_d y ++ "\nPopulation: " ++ fmt_2f ((p0 + p1) / 2)
              ++ " (approximately)\n\n" := by
  have e : y - 5 + 10 = y + 5 := by ring
  have hv : p0 + (p1 - p0) * ((5 : Int) : ℚ) / 10 = (p0 + p1) / 2 := by push_cast; ring
  have h := input_loop_interpolated years populations t stdin y p0 p1 hinv hy hlo hhi
    (by omega) (by rw [hmod]; exact h0) (by rw [hmod, e]; exact h1)
  have hi := interpolate_decade y 5 p0 p1
  rw [hmod, e, hv] at h
  rw [e, hv] at hi
  refine ⟨h, hi, ?_⟩
  apply String.ext
  simp [print_results_text, printf, printf_chars, approx_str, String.data_append]

theorem midpoint_year_reported_witness :
    table_invariant sample_years ∧ atoi token_1795.chars = some 1795
      ∧ (1795 : Int) % 10 = 5
      ∧ sample_populations[decade_slot (1795 - 5)]? = some (some 184139)
      ∧ sample_populations[decade_slot (1795 + 5)]? = some (some 211149)
      ∧ (input_loop sample_years sample_populations [token_1795, token_0]
            = Run.after [Event.out prompt_text, Event.call_atoi token_1795.chars,
                         Event.call_lower_decade_index 1795 5,
                         Event.call_interpolate ⟨1795, 1795 - 5, 1795 + 5, 184139, 211149⟩,
                         Event.call_print_results 1795 ((184139 + 211149) / 2) false,
                         Event.out (print_results_text 1795 ((184139 + 211149) / 2) false)]
                (input_loop sample_years sample_populations [token_0])
          ∧ interpolate ⟨1795, 1795 - 5, 1795 + 5, 184139, 211149⟩
              = Res.ok ((184139 + 211149) / 2)
          ∧ print_results_text 1795 ((184139 + 211149) / 2) false
              = "\nYear: " ++ fmt_d 1795 ++ "\nPopulation: " ++ fmt_2f ((184139 + 211149) / 2)
                  ++ " (approximately)\n\n") :=
  ⟨sample_years_invariant, by decide, by decide, by rfl, by rfl,
   midpoint_year_reported sample_years sample_populations token_1795 [token_0] 1795
     184139 211149 sample_years_invariant (by decide) (by decide) (by decide) (by decide)
     (by rfl) (by rfl)⟩

/-- C16: a token made of leading zeros, the decimal digits of a year `y` of
`[1790, 2010]` and a suffix that is empty or begins with a character other than
a digit (`1990abc`, `01990`) is converted by `atoi` to `y`. The response of
`input_loop` is the one to the plain decimal token of `y`: after the call of
`atoi` both go on with `lower_decade_index(y, y mod 10, ..)` and with the same
events, so the same text is written, the run ends the same way and leaves the
same input unread; the invalid-number message is not written. -/
theorem padded_year_token (years : List (Option Int)) (populations : List (Option ℚ))
    (t plain : Token) (stdin : List Token) (y : Int) (z : Nat) (suffix : List Char)
    (hlo : 1790 ≤ y) (hhi : y ≤ 2010)
    (hplain : plain.chars = (fmt_d y).data)
    (ht : t.chars = List.replicate z '0' ++ (fmt_d y).data ++ suffix)
    (hsuf : ∀ c rest, suffix = c :: rest → isdigit c = false) :
    atoi t.chars = some y ∧ atoi plain.chars = some y
      ∧ (∃ (rest : List Event) (f : Option Fault),
          respond years populations t
              = (Event.call_atoi t.chars
                  :: Event.call_lower_decade_index y (y % 10) :: rest, f)
            ∧ respond years populations plain
              = (Event.call_atoi plain.chars
                  :: Event.call_lower_decade_index y (y % 10) :: rest, f))
      ∧ stdout_text (input_loop years populations (t :: stdin)).trace
          = stdout_text (input_loop years populations (plain :: stdin)).trace
      ∧ (input_loop years populations (t :: stdin)).ending
          = (input_loop years populations (plain :: stdin)).ending
      ∧ (input_loop years populations (t :: stdin)).unread
          = (input_loop years populations (plain :: stdin)).unread
      ∧ respond years populations t
          ≠ ([Event.call_atoi t.chars, Event.out (invalid_text t.chars)], none) := by
  have hmax : y ≤ INT_MAX := by simp only [INT_MAX]; omega
  have ha : atoi t.chars = some y := by
    rw [ht]; exact atoi_padded y z suffix (by omega) hmax hsuf
  have hb : atoi plain.chars = some y := by
    have h := atoi_padded y 0 [] (by omega) hmax (by intro c rest h; cases h)
    simpa [hplain] using h
  have hne : ∀ u : Token, atoi u.chars = some y → u.chars ≠ ['0'] := by
    intro u hu h
    have hz : atoi ['0'] = some 0 := by decide
    rw [h, hz] at hu
    simp at hu
    omega
  obtain ⟨rest, f, h1, h2⟩ := respond_same_year years populations t plain y ha hb hlo hhi
  have hinv : respond years populations t
      ≠ ([Event.call_atoi t.chars, Event.out (invalid_text t.chars)], none) := by
    rw [h1]
    intro h
    simp at h
  refine ⟨ha, hb, ⟨rest, f, h1, h2⟩, ?_⟩
  cases f with
  | none =>
    rw [input_loop_of_respond years populations t stdin _ (hne t ha) h1,
      input_loop_of_respond years populations plain stdin _ (hne plain hb) h2]
    exact ⟨rfl, rfl, rfl, hinv⟩
  | some g =>
    rw [input_loop_of_fault years populations t stdin _ g (hne t ha) h1,
      input_loop_of_fault years populations plain stdin _ g (hne plain hb) h2]
    exact ⟨rfl, rfl, rfl, hinv⟩

theorem padded_year_token_witness :
    (1790 : Int) ≤ 1990 ∧ (1990 : Int) ≤ 2010
      ∧ token_1990.chars = (fmt_d 1990).data
      ∧ token_01990abc.chars = List.replicate 1 '0' ++ (fmt_d 1990).data ++ ['a', 'b', 'c']
      ∧ (atoi token_01990abc.chars = some 1990 ∧ atoi token_1990.chars = some 1990
          ∧ (∃ (rest : List Event) (f : Option Fault),
              respond sample_years sample_populations token_01990abc
                  = (Event.call_atoi token_01990abc.chars
                      :: Event.call_lower_decade_index 1990 (1990 % 10) :: rest, f)
                ∧ respond sample_years sample_populations token_1990
                  = (Event.call_atoi token_1990.chars
                      :: Event.call_lower_decade_index 1990 (1990 % 10) :: rest, f))
          ∧ stdout_text (input_loop sample_years sample_populations
                [token_01990abc, token_0]).trace
              = stdout_text (input_loop sample_years sample_populations
                  [token_1990, token_0]).trace
          ∧ (input_loop sample_years sample_populations [token_01990abc, token_0]).ending
              = (input_loop sample_years sample_populations [token_1990, token_0]).ending
          ∧ (input_loop sample_years sample_populations [token_01990abc, token_0]).unread
              = (input_loop sample_years sample_populations [token_1990, token_0]).unread
          ∧ respond sample_years sample_populations token_01990abc
              ≠ ([Event.call_atoi token_01990abc.chars,
                  Event.out (invalid_text token_01990abc.chars)], none)) :=
  ⟨by decide, by decide, by decide, by decide,
   padded_year_token sample_years sample_populations token_01990abc token_1990 [token_0]
     1990 1 ['a', 'b', 'c'] (by decide) (by decide) (by decide) (by decide)
     (by intro c rest h; cases h; rfl)⟩

/-- C17, as the code has it: on a file whose first `k - 1` items (`k ≤ 23`) are
well-formed records and whose next line begins with text of which `%d` converts
nothing (no digit, and no sign followed by a digit, at its start), the loop
exits at that line: `i` is `k - 1`, slots `0 .. k - 2` hold the `k - 1` records
and the other slots are unwritten, the malformed line and everything after it
are still in the file; `main` then calls `input_loop`, and when that returns
the exit status is 0. -/
theorem malformed_line_ends_loading (recs : List (Int × ℚ)) (later : List ScanItem)
    (stdin : List Token) (hk : recs.length + 1 ≤ DECADES)
    (hret : (input_loop
        (recs.map (fun r => some r.1) ++ List.replicate (DECADES - recs.length) none)
        (recs.map (fun r => some r.2) ++ List.replicate (DECADES - recs.length) none)
        stdin).ending = Ending.returned) :
    read_loop (Loader.start
        (some (recs.map (fun r => ScanItem.record r.1 r.2) ++ ScanItem.garbage :: later)))
        = { fp := some (ScanItem.garbage :: later), i := recs.length,
            years := recs.map (fun r => some r.1)
              ++ List.replicate (DECADES - recs.length) none,
            populations := recs.map (fun r => some r.2)
              ++ List.replicate (DECADES - recs.length) none,
            trace := (List.range' 0 recs.length).map (fun k => Event.call_fscanf k (some 2))
              ++ [Event.call_fscanf recs.length (some 0)],
            fault := none }
      ∧ main (some (recs.map (fun r => ScanItem.record r.1 r.2) ++ ScanItem.garbage :: later))
          stdin
        = ⟨((List.range' 0 recs.length).map (fun k => Event.call_fscanf k (some 2))
              ++ [Event.call_fscanf recs.length (some 0)])
            ++ Event.call_input_loop ::
              (input_loop
                (recs.map (fun r => some r.1) ++ List.replicate (DECADES - recs.length) none)
                (recs.map (fun r => some r.2) ++ List.replicate (DECADES - recs.length) none)
                stdin).trace,
           Res.ok 0,
           (input_loop
              (recs.map (fun r => some r.1) ++ List.replicate (DECADES - recs.length) none)
              (recs.map (fun r => some r.2) ++ List.replicate (DECADES - recs.length) none)
              stdin).unread⟩ := by
  have h := (read_loop_records_then recs (ScanItem.garbage :: later) (by omega)).trans
    (read_loop_at_garbage _ later rfl rfl)
  refine ⟨h, ?_⟩
  simp only [main, h, hret]

theorem malformed_line_ends_loading_witness :
    (sample_records 3).length + 1 ≤ DECADES
      ∧ (input_loop
          ((sample_records 3).map (fun r => some r.1)
            ++ List.replicate (DECADES - (sample_records 3).length) none)
          ((sample_records 3).map (fun r => some r.2)
            ++ List.replicate (DECADES - (sample_records 3).length) none)
          [token_0]).ending = Ending.returned
      ∧ (read_loop (Loader.start
            (some ((sample_records 3).map (fun r => ScanItem.record r.1 r.2)
              ++ ScanItem.garbage :: sample_file 2)))
            = { fp := some (ScanItem.garbage :: sample_file 2),
                i := (sample_records 3).length,
                years := (sample_records 3).map (fun r => some r.1)
                  ++ List.replicate (DECADES - (sample_records 3).length) none,
                populations := (sample_records 3).map (fun r => some r.2)
                  ++ List.replicate (DECADES - (sample_records 3).length) none,
                trace := (List.range' 0 (sample_records 3).length).map
                           (fun k => Event.call_fscanf k (some 2))
                  ++ [Event.call_fscanf (sample_records 3).length (some 0)],
                fault := none }
          ∧ main (some ((sample_records 3).map (fun r => ScanItem.record r.1 r.2)
                ++ ScanItem.garbage :: sample_file 2)) [token_0]
            = ⟨((List.range' 0 (sample_records 3).length).map
                  (fun k => Event.call_fscanf k (some 2))
                  ++ [Event.call_fscanf (sample_records 3).length (some 0)])
                ++ Event.call_input_loop ::
                  (input_loop
                    ((sample_records 3).map (fun r => some r.1)
                      ++ List.replicate (DECADES - (sample_records 3).length) none)
                    ((sample_records 3).map (fun r => some r.2)
                      ++ List.replicate (DECADES - (sample_records 3).length) none)
                    [token_0]).trace,
               Res.ok 0,
               (input_loop
                  ((sample_records 3).map (fun r => some r.1)
                    ++ List.replicate (DECADES - (sample_records 3).length) none)
                  ((sample_records 3).map (fun r => some r.2)
                    ++ List.replicate (DECADES - (sample_records 3).length) none)
                  [token_0]).unread⟩) :=
  ⟨by decide, by rfl,
   malformed_line_ends_loading (sample_records 3) (sample_file 2) [token_0]
     (by decide) (by rfl)⟩

/-- C17 fails as stated: a fourth line `12abc 3500` begins with a token that is
not an integer, yet `%d` converts its prefix `12`. The call made with `i = 3`
stores 12 in `years[3]` and returns 1, so `i` becomes 4; the loop exits only
at the next call, which meets `abc` and returns 0. The loop thus ends with
`i = 4` and a fourth slot written, not with `i = 3` and three records. -/
theorem malformed_line_integer_start :
    (read_loop (Loader.start
        (some ((sample_records 3).map (fun r => ScanItem.record r.1 r.2)
          ++ [ScanItem.year_only 12])))).i = 4
      ∧ (read_loop (Loader.start
          (some ((sample_records 3).map (fun r => ScanItem.record r.1 r.2)
            ++ [ScanItem.year_only 12])))).years[3]? = some (some 12)
      ∧ (read_loop (Loader.start
          (some ((sample_records 3).map (fun r => ScanItem.record r.1 r.2)
            ++ [ScanItem.year_only 12])))).trace
          = [Event.call_fscanf 0 (some 2), Event.call_fscanf 1 (some 2),
             Event.call_fscanf 2 (some 2), Event.call_fscanf 3 (some 1),
             Event.call_fscanf 4 (some 0)]
      ∧ (read_loop (Loader.start
          (some ((sample_records 3).map (fun r => ScanItem.record r.1 r.2)
            ++ [ScanItem.year_only 12])))).fault = none := by
  rw [read_loop_records_then (sample_records 3) [ScanItem.year_only 12] (by decide)]
  rw [read_loop]
  simp only [fscanf, store_fault]
  have h3 : (sample_records 3).length = 3 := by decide
  simp only [h3]
  rw [read_loop]
  simp [fscanf, DECADES, write_slot, sample_records, List.range']

end Census
